import Mathlib

/-!
Verification of the `wato_ros2_spinnaker_driver` repository.

This file shallowly embeds the parts of the repository that the claims
C1..C10 are about:

* the generated fastrtps CDR type-support code for the
  `flir_camera_msgs/msg/CameraControl` message
  (`camera_control__type_support_c.cpp`): serializer, deserializer and
  serialized-size functions;
* the generated type description (`camera_control__description.c`) and the
  `ImageMetaData.idl` schema;
* the Spinnaker SDK example programs (`Exposure_C_Quickspin.c`,
  `NodeMapInfo_QuickSpin.cpp`, `Sequencer.cpp`, `EnumerationEvents.cpp`),
  embedded as trace semantics: each example function is a Lean function
  from an environment (the statuses and data the closed-source SDK would
  return at each call site) to the list of events (SDK calls with their
  arguments and statuses, and log lines) the function performs, together
  with its return value.

Machine integers are modelled as `Nat`/`Int` with explicit bounds;
C `float`/`double` values that only flow through comparisons and
assignments are modelled as `ℚ`; `float` fields that are only memcpy'd by
the CDR layer (the `gain` fields) are modelled by their 32-bit patterns.
Bytes are `Nat` values; writers reduce values mod 256 exactly where the
C code truncates to bytes.
-/

/-! ## CDR byte-level primitives (eprosima fastcdr)

`Cdr::alignment(current, dataSize)` pads the stream to a multiple of
`dataSize` (relative to the stream origin); scalars are written
little-endian.  Serialization in this development starts at origin 0, and
all positions are absolute stream offsets. -/

/-- Padding needed to bring offset `pos` to a multiple of `n`
(fastcdr `Cdr::alignment`). -/
def cdrAlign (pos n : Nat) : Nat := (n - pos % n) % n

/-- `k` padding bytes (fastcdr writes alignment padding; its content is
ignored by deserialization, the serializer state zeroes it). -/
def cdrPad (k : Nat) : List Nat := List.replicate k 0

/-- Little-endian bytes of a 16-bit value. -/
def le16 (v : Nat) : List Nat := [v % 256, v / 256 % 256]

/-- Little-endian bytes of a 32-bit value. -/
def le32 (v : Nat) : List Nat :=
  [v % 256, v / 256 % 256, v / 65536 % 256, v / 16777216 % 256]

/-- Little-endian bytes of a 64-bit value. -/
def le64 (v : Nat) : List Nat :=
  [v % 256, v / 256 % 256, v / 65536 % 256, v / 16777216 % 256,
   v / 4294967296 % 256, v / 1099511627776 % 256,
   v / 281474976710656 % 256, v / 72057594037927936 % 256]

/-- Serialize a `uint32` at offset `pos`: align to 4, then 4 LE bytes. -/
def writeU32 (pos v : Nat) : List Nat := cdrPad (cdrAlign pos 4) ++ le32 v

/-- Serialize a `uint64` at offset `pos`: align to 8, then 8 LE bytes. -/
def writeU64 (pos v : Nat) : List Nat := cdrPad (cdrAlign pos 8) ++ le64 v

/-- Serialize an `int16` at offset `pos`: align to 2, then the 2 LE bytes
of the two's-complement representation. -/
def writeI16 (pos : Nat) (v : Int) : List Nat :=
  cdrPad (cdrAlign pos 2) ++ le16 (v % 65536).toNat

/-- Serialize an `int32` at offset `pos`: align to 4, then the 4 LE bytes
of the two's-complement representation. -/
def writeI32 (pos : Nat) (v : Int) : List Nat :=
  cdrPad (cdrAlign pos 4) ++ le32 (v % 4294967296).toNat

/-- Serialize a CDR string at offset `pos`: aligned `uint32` length
(character count plus one for the terminating NUL), the characters, then
the NUL terminator. -/
def writeString (pos : Nat) (s : List Nat) : List Nat :=
  writeU32 pos (s.length + 1) ++ s ++ [0]

/-- Split off the first `k` bytes, failing when fewer remain. -/
def takeN (k : Nat) (l : List Nat) : Option (List Nat × List Nat) :=
  if k ≤ l.length then some (l.take k, l.drop k) else none

/-- Deserialize a `uint32` at offset `pos` from the remaining bytes `l`:
skip alignment padding, read 4 LE bytes.  Returns the value, the new
offset and the remaining bytes. -/
def readU32 (pos : Nat) (l : List Nat) : Option (Nat × Nat × List Nat) :=
  match takeN (cdrAlign pos 4) l with
  | none => none
  | some (_, l1) =>
    match l1 with
    | b0 :: b1 :: b2 :: b3 :: rest =>
      some (b0 + 256 * b1 + 65536 * b2 + 16777216 * b3, pos + cdrAlign pos 4 + 4, rest)
    | _ => none

/-- Deserialize a `uint64` at offset `pos`. -/
def readU64 (pos : Nat) (l : List Nat) : Option (Nat × Nat × List Nat) :=
  match takeN (cdrAlign pos 8) l with
  | none => none
  | some (_, l1) =>
    match l1 with
    | b0 :: b1 :: b2 :: b3 :: b4 :: b5 :: b6 :: b7 :: rest =>
      some (b0 + 256 * b1 + 65536 * b2 + 16777216 * b3 + 4294967296 * b4
              + 1099511627776 * b5 + 281474976710656 * b6
              + 72057594037927936 * b7,
            pos + cdrAlign pos 8 + 8, rest)
    | _ => none

/-- Deserialize an `int16` at offset `pos` (two's complement decode). -/
def readI16 (pos : Nat) (l : List Nat) : Option (Int × Nat × List Nat) :=
  match takeN (cdrAlign pos 2) l with
  | none => none
  | some (_, l1) =>
    match l1 with
    | b0 :: b1 :: rest =>
      let n := b0 + 256 * b1
      some (if n < 32768 then (n : Int) else (n : Int) - 65536,
            pos + cdrAlign pos 2 + 2, rest)
    | _ => none

/-- Deserialize an `int32` at offset `pos` (two's complement decode). -/
def readI32 (pos : Nat) (l : List Nat) : Option (Int × Nat × List Nat) :=
  match readU32 pos l with
  | none => none
  | some (n, p, rest) =>
    some (if n < 2147483648 then (n : Int) else (n : Int) - 4294967296, p, rest)

/-- Deserialize a CDR string at offset `pos`: read the length, then that
many bytes; the value drops the trailing NUL terminator. -/
def readString (pos : Nat) (l : List Nat) : Option (List Nat × Nat × List Nat) :=
  match readU32 pos l with
  | none => none
  | some (len, p1, l1) =>
    match takeN len l1 with
    | none => none
    | some (cs, l2) => some (cs.take (len - 1), p1 + len, l2)

/-! ## Message records

Field names follow the generated C structs.  `gain` is a C `float` whose
bytes are memcpy'd by fastcdr, so it is represented by its 32-bit
pattern. -/

/-- `builtin_interfaces/msg/Time`: `int32 sec`, `uint32 nanosec`. -/
structure builtin_interfaces__msg__Time where
  sec : Int
  nanosec : Nat
  deriving DecidableEq, Repr

/-- `std_msgs/msg/Header`: a `Time` stamp and a string `frame_id`
(modelled as its byte list). -/
structure std_msgs__msg__Header where
  stamp : builtin_interfaces__msg__Time
  frame_id : List Nat
  deriving DecidableEq, Repr

/-- `flir_camera_msgs/msg/CameraControl` (camera_control__struct.h):
header, `uint32 exposure_time` (microseconds), `float gain` (dB, held as
its 32-bit pattern). -/
structure flir_camera_msgs__msg__CameraControl where
  header : std_msgs__msg__Header
  exposure_time : Nat
  gain : Nat
  deriving DecidableEq, Repr

/-- Range constraints of the C representation of a `Time`. -/
def wfTime (t : builtin_interfaces__msg__Time) : Prop :=
  -2147483648 ≤ t.sec ∧ t.sec < 2147483648 ∧ t.nanosec < 4294967296

/-- Range constraints of the C representation of a `Header`: `Time` in
range, characters are bytes, string length representable. -/
def wfHeader (h : std_msgs__msg__Header) : Prop :=
  wfTime h.stamp ∧ h.frame_id.length + 1 < 4294967296

/-- Range constraints of the C representation of a `CameraControl`. -/
def wfCameraControl (m : flir_camera_msgs__msg__CameraControl) : Prop :=
  wfHeader m.header ∧ m.exposure_time < 4294967296 ∧ m.gain < 4294967296

instance (t : builtin_interfaces__msg__Time) : Decidable (wfTime t) := by
  unfold wfTime; infer_instance

instance (h : std_msgs__msg__Header) : Decidable (wfHeader h) := by
  unfold wfHeader; infer_instance

instance (m : flir_camera_msgs__msg__CameraControl) : Decidable (wfCameraControl m) := by
  unfold wfCameraControl; infer_instance

/-! ## Header CDR code

The generated CameraControl type support calls
`cdr_serialize_std_msgs__msg__Header` / `cdr_deserialize_std_msgs__msg__Header`
/ `get_serialized_size_std_msgs__msg__Header`, which live in the external
`std_msgs` package.  They are modelled here by the standard CDR layout of
`std_msgs/Header`: `int32 sec`, `uint32 nanosec`, string `frame_id`. -/

/-- Serialize a `std_msgs/Header` starting at offset `pos` (models the
external `cdr_serialize_std_msgs__msg__Header`). -/
def cdr_serialize_std_msgs__msg__Header (pos : Nat) (h : std_msgs__msg__Header) : List Nat :=
  let b1 := writeI32 pos h.stamp.sec
  let b2 := writeU32 (pos + b1.length) h.stamp.nanosec
  let b3 := writeString (pos + b1.length + b2.length) h.frame_id
  b1 ++ b2 ++ b3

/-- Deserialize a `std_msgs/Header` (models the external
`cdr_deserialize_std_msgs__msg__Header`). -/
def cdr_deserialize_std_msgs__msg__Header (pos : Nat) (l : List Nat) :
    Option (std_msgs__msg__Header × Nat × List Nat) :=
  match readI32 pos l with
  | none => none
  | some (sec, p1, l1) =>
    match readU32 p1 l1 with
    | none => none
    | some (ns, p2, l2) =>
      match readString p2 l2 with
      | none => none
      | some (fid, p3, l3) => some (⟨⟨sec, ns⟩, fid⟩, p3, l3)

/-- Serialized size of a `std_msgs/Header` from alignment state
`current_alignment` (models the external
`get_serialized_size_std_msgs__msg__Header`). -/
def get_serialized_size_std_msgs__msg__Header (h : std_msgs__msg__Header)
    (current_alignment : Nat) : Nat :=
  let c1 := current_alignment + cdrAlign current_alignment 4 + 4
  let c2 := c1 + cdrAlign c1 4 + 4
  let c3 := c2 + cdrAlign c2 4 + 4 + (h.frame_id.length + 1)
  c3 - current_alignment

/-! ## CameraControl CDR type support
(camera_control__type_support_c.cpp) -/

/-- `cdr_serialize_flir_camera_msgs__msg__CameraControl`: header, then
`cdr << exposure_time`, then `cdr << gain`. -/
def cdr_serialize_flir_camera_msgs__msg__CameraControl (pos : Nat)
    (m : flir_camera_msgs__msg__CameraControl) : List Nat :=
  let b1 := cdr_serialize_std_msgs__msg__Header pos m.header
  let b2 := writeU32 (pos + b1.length) m.exposure_time
  let b3 := writeU32 (pos + b1.length + b2.length) m.gain
  b1 ++ b2 ++ b3

/-- `cdr_deserialize_flir_camera_msgs__msg__CameraControl`: header, then
`cdr >> exposure_time`, then `cdr >> gain`. -/
def cdr_deserialize_flir_camera_msgs__msg__CameraControl (pos : Nat) (l : List Nat) :
    Option (flir_camera_msgs__msg__CameraControl × Nat × List Nat) :=
  match cdr_deserialize_std_msgs__msg__Header pos l with
  | none => none
  | some (h, p1, l1) =>
    match readU32 p1 l1 with
    | none => none
    | some (et, p2, l2) =>
      match readU32 p2 l2 with
      | none => none
      | some (g, p3, l3) => some (⟨h, et, g⟩, p3, l3)

/-- `get_serialized_size_flir_camera_msgs__msg__CameraControl`: header
size, then a 4-byte aligned `exposure_time`, then a 4-byte aligned
`gain`; returns `current_alignment - initial_alignment`. -/
def get_serialized_size_flir_camera_msgs__msg__CameraControl
    (m : flir_camera_msgs__msg__CameraControl) (current_alignment : Nat) : Nat :=
  let c1 := current_alignment +
    get_serialized_size_std_msgs__msg__Header m.header current_alignment
  let c2 := c1 + 4 + cdrAlign c1 4
  let c3 := c2 + 4 + cdrAlign c2 4
  c3 - current_alignment

/-! ## Round-trip lemmas for the CDR primitives -/

theorem takeN_exact (l1 l2 : List Nat) : takeN l1.length (l1 ++ l2) = some (l1, l2) := by
  unfold takeN
  rw [if_pos (by simp), List.take_left, List.drop_left]

theorem length_cdrPad (k : Nat) : (cdrPad k).length = k := by
  simp [cdrPad]

theorem length_writeU32 (pos v : Nat) : (writeU32 pos v).length = cdrAlign pos 4 + 4 := by
  simp [writeU32, cdrPad, le32]

theorem readU32_writeU32 (pos v : Nat) (rest : List Nat) (hv : v < 4294967296) :
    readU32 pos (writeU32 pos v ++ rest) = some (v, pos + cdrAlign pos 4 + 4, rest) := by
  unfold readU32 writeU32
  rw [List.append_assoc]
  have h := takeN_exact (cdrPad (cdrAlign pos 4)) (le32 v ++ rest)
  rw [length_cdrPad] at h
  rw [h]
  simp only [le32, List.cons_append, List.nil_append]
  congr 2
  omega

theorem readU32_writeU32_len (pos v : Nat) (rest : List Nat) (hv : v < 4294967296) :
    readU32 pos (writeU32 pos v ++ rest) = some (v, pos + (writeU32 pos v).length, rest) := by
  rw [readU32_writeU32 pos v rest hv, length_writeU32]
  congr 2

theorem length_writeI32 (pos : Nat) (v : Int) :
    (writeI32 pos v).length = cdrAlign pos 4 + 4 := by
  simp [writeI32, cdrPad, le32]

theorem readI32_writeI32 (pos : Nat) (v : Int) (rest : List Nat)
    (hlo : -2147483648 ≤ v) (hhi : v < 2147483648) :
    readI32 pos (writeI32 pos v ++ rest) = some (v, pos + (writeI32 pos v).length, rest) := by
  unfold readI32 writeI32
  have henc : (v % 4294967296).toNat < 4294967296 := by omega
  have h := readU32_writeU32 pos (v % 4294967296).toNat rest henc
  unfold writeU32 at h
  rw [h]
  simp only [Option.some.injEq, Prod.mk.injEq]
  refine ⟨by split <;> omega, by simp [cdrPad, le32]; omega⟩

theorem length_writeString (pos : Nat) (s : List Nat) :
    (writeString pos s).length = cdrAlign pos 4 + 4 + (s.length + 1) := by
  simp [writeString, length_writeU32]

theorem readString_writeString (pos : Nat) (s : List Nat) (rest : List Nat)
    (hs : s.length + 1 < 4294967296) :
    readString pos (writeString pos s ++ rest) =
      some (s, pos + (writeString pos s).length, rest) := by
  unfold readString writeString
  rw [List.append_assoc, List.append_assoc]
  rw [readU32_writeU32 pos (s.length + 1) (s ++ ([0] ++ rest)) hs]
  have h2 : takeN (s.length + 1) (s ++ ([0] ++ rest)) = some (s ++ [0], rest) := by
    rw [← List.append_assoc]
    have h := takeN_exact (s ++ [0]) rest
    simpa using h
  simp only [h2]
  simp [List.take_left, length_writeU32, length_writeString]
  omega

theorem header_round_trip (pos : Nat) (h : std_msgs__msg__Header) (rest : List Nat)
    (hwf : wfHeader h) :
    cdr_deserialize_std_msgs__msg__Header pos
        (cdr_serialize_std_msgs__msg__Header pos h ++ rest) =
      some (h, pos + (cdr_serialize_std_msgs__msg__Header pos h).length, rest) := by
  obtain ⟨⟨hlo, hhi, hns⟩, hfid⟩ := hwf
  unfold cdr_deserialize_std_msgs__msg__Header cdr_serialize_std_msgs__msg__Header
  simp only [List.append_assoc]
  simp only [readI32_writeI32 pos h.stamp.sec, readU32_writeU32_len, readString_writeString,
    hlo, hhi, hns, hfid]
  simp [List.length_append]
  omega

theorem camera_control_round_trip_from (pos : Nat)
    (m : flir_camera_msgs__msg__CameraControl) (rest : List Nat)
    (hwf : wfCameraControl m) :
    cdr_deserialize_flir_camera_msgs__msg__CameraControl pos
        (cdr_serialize_flir_camera_msgs__msg__CameraControl pos m ++ rest) =
      some (m, pos + (cdr_serialize_flir_camera_msgs__msg__CameraControl pos m).length, rest) := by
  obtain ⟨hh, het, hg⟩ := hwf
  unfold cdr_deserialize_flir_camera_msgs__msg__CameraControl
    cdr_serialize_flir_camera_msgs__msg__CameraControl
  simp only [List.append_assoc]
  simp only [header_round_trip pos m.header _ hh, readU32_writeU32_len, het, hg]
  simp [List.length_append]
  omega

theorem header_serialized_size (pos : Nat) (h : std_msgs__msg__Header) :
    (cdr_serialize_std_msgs__msg__Header pos h).length =
      get_serialized_size_std_msgs__msg__Header h pos := by
  unfold cdr_serialize_std_msgs__msg__Header get_serialized_size_std_msgs__msg__Header
  simp [List.length_append, length_writeI32, length_writeU32, length_writeString, Nat.add_assoc]

theorem camera_control_size_aux (pos : Nat) (m : flir_camera_msgs__msg__CameraControl) :
    (cdr_serialize_flir_camera_msgs__msg__CameraControl pos m).length =
      get_serialized_size_flir_camera_msgs__msg__CameraControl m pos := by
  unfold cdr_serialize_flir_camera_msgs__msg__CameraControl
    get_serialized_size_flir_camera_msgs__msg__CameraControl
  simp [List.length_append, length_writeU32, header_serialized_size, Nat.add_assoc,
    Nat.add_comm, Nat.add_left_comm]

/-! ## ImageMetaData

`ImageMetaData.idl` (rosidl_adapter output) is in the repository, but the
generated fastrtps CDR type support for it is not among the provided
sources; it is modelled below by the same generator pattern that produced
the CameraControl type support. -/

/-- `flir_camera_msgs/msg/ImageMetaData` (ImageMetaData.idl): header,
`uint64 camera_time`, `int16 brightness`, `uint32 exposure_time`,
`uint32 max_exposure_time`, `float gain` (32-bit pattern). -/
structure flir_camera_msgs__msg__ImageMetaData where
  header : std_msgs__msg__Header
  camera_time : Nat
  brightness : Int
  exposure_time : Nat
  max_exposure_time : Nat
  gain : Nat
  deriving DecidableEq, Repr

/-- Range constraints of the C representation of an `ImageMetaData`:
`brightness` is any `int16`; no further restriction appears in the
generated code. -/
def wfImageMetaData (m : flir_camera_msgs__msg__ImageMetaData) : Prop :=
  wfHeader m.header ∧ m.camera_time < 18446744073709551616 ∧
    -32768 ≤ m.brightness ∧ m.brightness < 32768 ∧
    m.exposure_time < 4294967296 ∧ m.max_exposure_time < 4294967296 ∧
    m.gain < 4294967296

instance (m : flir_camera_msgs__msg__ImageMetaData) : Decidable (wfImageMetaData m) := by
  unfold wfImageMetaData; infer_instance

/-- Modelled from the spec: the generated
`cdr_serialize_flir_camera_msgs__msg__ImageMetaData` is not among the
provided sources; per the IDL schema and the fastrtps generator pattern it
serializes the fields in declaration order with CDR alignment. -/
def cdr_serialize_flir_camera_msgs__msg__ImageMetaData (pos : Nat)
    (m : flir_camera_msgs__msg__ImageMetaData) : List Nat :=
  let b1 := cdr_serialize_std_msgs__msg__Header pos m.header
  let b2 := writeU64 (pos + b1.length) m.camera_time
  let b3 := writeI16 (pos + b1.length + b2.length) m.brightness
  let b4 := writeU32 (pos + b1.length + b2.length + b3.length) m.exposure_time
  let b5 := writeU32 (pos + b1.length + b2.length + b3.length + b4.length) m.max_exposure_time
  let b6 := writeU32 (pos + b1.length + b2.length + b3.length + b4.length + b5.length) m.gain
  b1 ++ b2 ++ b3 ++ b4 ++ b5 ++ b6

/-- Modelled from the spec: the matching deserializer, reading the six
fields in declaration order. -/
def cdr_deserialize_flir_camera_msgs__msg__ImageMetaData (pos : Nat) (l : List Nat) :
    Option (flir_camera_msgs__msg__ImageMetaData × Nat × List Nat) :=
  match cdr_deserialize_std_msgs__msg__Header pos l with
  | none => none
  | some (h, p1, l1) =>
    match readU64 p1 l1 with
    | none => none
    | some (ct, p2, l2) =>
      match readI16 p2 l2 with
      | none => none
      | some (br, p3, l3) =>
        match readU32 p3 l3 with
        | none => none
        | some (et, p4, l4) =>
          match readU32 p4 l4 with
          | none => none
          | some (met, p5, l5) =>
            match readU32 p5 l5 with
            | none => none
            | some (g, p6, l6) => some (⟨h, ct, br, et, met, g⟩, p6, l6)

theorem length_writeU64 (pos v : Nat) : (writeU64 pos v).length = cdrAlign pos 8 + 8 := by
  simp [writeU64, cdrPad, le64]

theorem length_writeI16 (pos : Nat) (v : Int) :
    (writeI16 pos v).length = cdrAlign pos 2 + 2 := by
  simp [writeI16, cdrPad, le16]

theorem readU64_writeU64 (pos v : Nat) (rest : List Nat) (hv : v < 18446744073709551616) :
    readU64 pos (writeU64 pos v ++ rest) = some (v, pos + (writeU64 pos v).length, rest) := by
  unfold readU64 writeU64
  rw [List.append_assoc]
  have h := takeN_exact (cdrPad (cdrAlign pos 8)) (le64 v ++ rest)
  rw [length_cdrPad] at h
  rw [h]
  simp only [le64, List.cons_append, List.nil_append]
  simp [cdrPad, le64, Option.some.injEq, Prod.mk.injEq]
  omega

theorem readI16_writeI16 (pos : Nat) (v : Int) (rest : List Nat)
    (hlo : -32768 ≤ v) (hhi : v < 32768) :
    readI16 pos (writeI16 pos v ++ rest) = some (v, pos + (writeI16 pos v).length, rest) := by
  unfold readI16 writeI16
  rw [List.append_assoc]
  have h := takeN_exact (cdrPad (cdrAlign pos 2)) (le16 (v % 65536).toNat ++ rest)
  rw [length_cdrPad] at h
  rw [h]
  simp only [le16, List.cons_append, List.nil_append]
  simp [cdrPad, le16, Option.some.injEq, Prod.mk.injEq]
  constructor
  · split <;> omega
  · omega

theorem image_meta_data_round_trip_from (pos : Nat)
    (m : flir_camera_msgs__msg__ImageMetaData) (rest : List Nat)
    (hwf : wfImageMetaData m) :
    cdr_deserialize_flir_camera_msgs__msg__ImageMetaData pos
        (cdr_serialize_flir_camera_msgs__msg__ImageMetaData pos m ++ rest) =
      some (m, pos + (cdr_serialize_flir_camera_msgs__msg__ImageMetaData pos m).length, rest) := by
  obtain ⟨hh, hct, hblo, hbhi, het, hmet, hg⟩ := hwf
  unfold cdr_deserialize_flir_camera_msgs__msg__ImageMetaData
    cdr_serialize_flir_camera_msgs__msg__ImageMetaData
  simp only [List.append_assoc]
  simp only [header_round_trip pos m.header _ hh, readU64_writeU64,
    readI16_writeI16 _ m.brightness, readU32_writeU32_len, hct, hblo, hbhi, het, hmet, hg]
  simp [List.length_append]
  omega

/-! ## Generated type descriptions

`camera_control__description.c` defines the field list of `CameraControl`
(names and rosidl field-type codes) and carries the raw `.msg` source the
generator consumed; `ImageMetaData.idl` defines the field list of
`ImageMetaData`.  Both are embedded as data. -/

/-- The rosidl field types appearing in the embedded descriptions
(`FIELD_TYPE_NESTED_TYPE` with its nested type name, `FIELD_TYPE_UINT64`,
`FIELD_TYPE_INT16`, `FIELD_TYPE_UINT32`, `FIELD_TYPE_FLOAT`). -/
inductive RosFieldType
  | nested (typeName : String)
  | uint64
  | int16
  | uint32
  | float32
  deriving DecidableEq, Repr

/-- One entry of a message type description: field name, field type, and
the comment attached to the field in the interface definition (empty when
none). -/
structure RosField where
  fname : String
  ftype : RosFieldType
  comment : String
  deriving DecidableEq, Repr

/-- The `FIELDS` array of `flir_camera_msgs__msg__CameraControl` from
`camera_control__description.c` (field comments from the embedded raw
source). -/
def flir_camera_msgs__msg__CameraControl__FIELDS : List RosField :=
  [⟨"header", .nested "std_msgs/Header", ""⟩,
   ⟨"exposure_time", .uint32, "set exposure time in microseconds"⟩,
   ⟨"gain", .float32, "set gain in db"⟩]

/-- The lines of `toplevel_type_raw_source` from
`camera_control__description.c` (the `CameraControl.msg` source). -/
def CameraControl_raw_source_lines : List String :=
  ["#",
   "# camera control message",
   "#",
   "std_msgs/Header header",
   "",
   "# set exposure time in microseconds",
   "uint32 exposure_time",
   "",
   "# set gain in db",
   "float32 gain"]

/-- The member list of the `ImageMetaData` struct from
`ImageMetaData.idl`, with each member's `@verbatim` comment. -/
def flir_camera_msgs__msg__ImageMetaData__FIELDS : List RosField :=
  [⟨"header", .nested "std_msgs/Header", ""⟩,
   ⟨"camera_time", .uint64,
     "time stamp produced by camera, interpretation depends on camera model"⟩,
   ⟨"brightness", .int16, "computed brightness, either 0...255 (valid) or -1 (invalid)"⟩,
   ⟨"exposure_time", .uint32, "exposure time in microseconds"⟩,
   ⟨"max_exposure_time", .uint32, "max allowed exposure time in microseconds"⟩,
   ⟨"gain", .float32, "gain in db"⟩]

/-- Split a line into space-separated words. -/
def splitOnSpace : List Char → List (List Char)
  | [] => [[]]
  | c :: cs =>
    let r := splitOnSpace cs
    if c = ' ' then [] :: r
    else
      match r with
      | [] => [[c]]
      | w :: ws => (c :: w) :: ws

/-- Parse one line of a `.msg` interface definition: comment lines and
blank lines carry no member; otherwise the first word is the type and the
second the member name. -/
def parseMsgLine (ln : String) : Option (String × String) :=
  match ln.data with
  | [] => none
  | c :: _ =>
    if c = '#' then none
    else
      match splitOnSpace ln.data with
      | t :: n :: _ => some (String.mk t, String.mk n)
      | _ => none

/-- The members declared by a `.msg` source, in order. -/
def parseMsgMembers (lines : List String) : List (String × String) :=
  lines.filterMap parseMsgLine

/-- The `.msg` spelling of a rosidl field type. -/
def renderMsgType : RosFieldType → String
  | .nested n => n
  | .uint64 => "uint64"
  | .int16 => "int16"
  | .uint32 => "uint32"
  | .float32 => "float32"

/-! ## Trace semantics of the SDK example programs

Each example function becomes a Lean function from an environment (the
statuses and data the closed-source Spinnaker SDK would return at each
call site) to the list of events it performs (SDK calls with their
arguments and resulting statuses, and log lines) and its return value.
Events carry a step tag classifying the call into the phases of the
fixed per-camera pattern (`other` for calls outside those phases). -/

/-- Phases of the per-camera pattern of the example programs. -/
inductive Step
  | enumerate
  | initCam
  | configure
  | acquire
  | resetStep
  | deinit
  | other
  deriving DecidableEq, Repr

/-- Rank of a phase in the fixed pattern. -/
def stepRank : Step → Nat
  | .enumerate => 0
  | .initCam => 1
  | .configure => 2
  | .acquire => 3
  | .resetStep => 4
  | .deinit => 5
  | .other => 6

/-- One event of an example-program trace: an SDK call (optionally
carrying the float or integer value passed to the camera) with the
status the SDK returned, or a printed log line. -/
inductive Ev
  | call (tag : Step) (name : String) (st : Int)
  | callv (tag : Step) (name : String) (v : ℚ) (st : Int)
  | calli (tag : Step) (name : String) (v : Int) (st : Int)
  | log (tag : Step) (msg : String)
  deriving DecidableEq, Repr

/-- The tag of an event. -/
def evTag : Ev → Step
  | .call t _ _ => t
  | .callv t _ _ _ => t
  | .calli t _ _ _ => t
  | .log t _ => t

/-- The phase of an SDK-call event when it belongs to the pattern. -/
def stepOf : Ev → Option Step
  | .call t _ _ => if t = .other then none else some t
  | .callv t _ _ _ => if t = .other then none else some t
  | .calli t _ _ _ => if t = .other then none else some t
  | .log _ _ => none

/-- The phase sequence of a trace (SDK calls only, pattern phases only). -/
def stepsOf (l : List Ev) : List Step := l.filterMap stepOf

/-- The SDK calls of a trace, as name/status pairs in order. -/
def callsOf (l : List Ev) : List (String × Int) :=
  l.filterMap fun e =>
    match e with
    | .call _ n st => some (n, st)
    | .callv _ n _ st => some (n, st)
    | .calli _ n _ st => some (n, st)
    | .log _ _ => none

/-- Environment of `Exposure_C_Quickspin.c`: the status (and data) the
SDK returns at each call site, per-index for calls inside loops. -/
structure ExpQSEnv where
  eAutoOff : Int
  eGetMax : Int
  exposureTimeMax : ℚ
  eSetVal : Int
  eAutoCont : Int
  ePdiNodeMap : Int
  ePdiGetNode : Int
  ePdiNumFeatures : Int
  pdiNumFeatures : Nat
  ePdiFeature : Nat → Int
  ePdiType1 : Nat → Int
  ePdiName : Nat → Int
  ePdiReadable : Nat → Int
  pdiReadable : Nat → Bool
  ePdiType2 : Nat → Int
  ePdiToString : Nat → Int
  eAcqMode : Int
  eBegin : Int
  eSerial : Int
  eExpGet : Int
  exposureTime : ℚ
  eProcCreate : Int
  eProcColor : Int
  eNextImage : Nat → Int
  eIsIncomplete : Nat → Int
  incomplete : Nat → Bool
  eGetStatus : Nat → Int
  eRelease1 : Nat → Int
  eWidth : Nat → Int
  eHeight : Nat → Int
  eCreateEmpty : Nat → Int
  eConvert : Nat → Int
  eSave : Nat → Int
  eDestroy : Nat → Int
  eRelease2 : Nat → Int
  eProcDestroy : Int
  eEnd : Int
  eInit : Int
  eTLInit : Int
  eQSInit : Int
  eDeInit : Int
  eSysGet : Int
  eLibVer : Int
  eListCreate : Int
  eGetCams : Int
  eListSize : Int
  numCameras : Nat
  eListGet : Nat → Int
  eCamRelease : Nat → Int
  eListClear : Int
  eListDestroy : Int
  eSysRelease : Int

/-- `ConfigureExposure` of `Exposure_C_Quickspin.c`: disable automatic
exposure, fetch the maximum exposure time, clamp the desired
2000000.0 us to it, and set it; on any failing call, log and return that
status immediately. -/
def ConfigureExposure (env : ExpQSEnv) : List Ev × Int :=
  let t0 := [Ev.log .configure "*** CONFIGURING EXPOSURE ***"]
  let e1 := env.eAutoOff
  if e1 ≠ 0 then
    (t0 ++ [Ev.call .configure "spinEnumerationSetEnumValue" e1,
            Ev.log .configure "Unable to disable automatic exposure. Aborting with error..."], e1)
  else
    let t1 := t0 ++ [Ev.call .configure "spinEnumerationSetEnumValue" e1,
                     Ev.log .configure "Automatic exposure disabled..."]
    let e2 := env.eGetMax
    if e2 ≠ 0 then
      (t1 ++ [Ev.call .configure "spinFloatGetMax" e2,
              Ev.log .configure "Unable to set exposure time. Aborting with error..."], e2)
    else
      let t2 := t1 ++ [Ev.call .configure "spinFloatGetMax" e2]
      let exposureTimeToSet : ℚ :=
        if 2000000 > env.exposureTimeMax then env.exposureTimeMax else 2000000
      let e3 := env.eSetVal
      if e3 ≠ 0 then
        (t2 ++ [Ev.callv .configure "spinFloatSetValue" exposureTimeToSet e3,
                Ev.log .configure "Unable to set exposure time. Aborting with error..."], e3)
      else
        (t2 ++ [Ev.callv .configure "spinFloatSetValue" exposureTimeToSet e3,
                Ev.log .configure "Exposure time set to..."], e3)

/-- `ResetExposure` of `Exposure_C_Quickspin.c`. -/
def ResetExposure (env : ExpQSEnv) : List Ev × Int :=
  let e := env.eAutoCont
  if e ≠ 0 then
    ([Ev.call .resetStep "spinEnumerationSetIntValue" e,
      Ev.log .resetStep "Unable to enable automatic exposure. Aborting with error..."], e)
  else
    ([Ev.call .resetStep "spinEnumerationSetIntValue" e,
      Ev.log .resetStep "Automatic exposure enabled..."], e)

/-- `IsReadable` of `Exposure_C_Quickspin.c`: query node readability;
on a failing call log and report unreadable (the output flag keeps its
`False` initialisation). -/
def IsReadable (env : ExpQSEnv) (i : Nat) : List Ev × Bool :=
  let e := env.ePdiReadable i
  if e ≠ 0 then
    ([Ev.call .other "spinNodeIsReadable" e,
      Ev.log .other "Unable to retrieve node readability..."], false)
  else
    ([Ev.call .other "spinNodeIsReadable" e], env.pdiReadable i)

/-- One iteration of the feature loop of `PrintDeviceInfo`: failures are
logged as non-fatal and the iteration `continue`s (the name and
to-string retrievals fall back to placeholder text without a log). -/
def pdiIter (env : ExpQSEnv) (i : Nat) : List Ev × Int :=
  let ea := env.ePdiFeature i
  if ea ≠ 0 then
    ([Ev.call .other "spinCategoryGetFeatureByIndex" ea,
      Ev.log .other "Unable to retrieve node. Non-fatal error..."], ea)
  else
    let t0 := [Ev.call .other "spinCategoryGetFeatureByIndex" ea]
    let eb := env.ePdiType1 i
    if eb ≠ 0 then
      (t0 ++ [Ev.call .other "spinNodeGetType" eb,
              Ev.log .other "Unable to retrieve node type. Non-fatal error..."], eb)
    else
      let t1 := t0 ++ [Ev.call .other "spinNodeGetType" eb]
      let ec := env.ePdiName i
      let t2 := t1 ++ [Ev.call .other "spinNodeGetName" ec]
      let rd := IsReadable env i
      let t3 := t2 ++ rd.1
      if rd.2 then
        let ee := env.ePdiType2 i
        if ee ≠ 0 then
          (t3 ++ [Ev.call .other "spinNodeGetType" ee,
                  Ev.log .other "Unable to retrieve node type. Non-fatal error..."], ee)
        else
          let t4 := t3 ++ [Ev.call .other "spinNodeGetType" ee]
          let ef := env.ePdiToString i
          (t4 ++ [Ev.call .other "spinNodeToString" ef,
                  Ev.log .other "feature name: feature value"], ef)
      else
        (t3 ++ [Ev.log .other "Node not readable"], ec)

/-- The feature loop of `PrintDeviceInfo`, threading the trace and the
last-assigned status. -/
def pdiLoop (env : ExpQSEnv) : List Nat → List Ev × Int → List Ev × Int
  | [], acc => acc
  | i :: rest, acc =>
    let it := pdiIter env i
    pdiLoop env rest (acc.1 ++ it.1, it.2)

/-- `PrintDeviceInfo` of `Exposure_C_Quickspin.c`: retrieve the TL device
nodemap, the DeviceInformation node and its feature count (each failure
logged as non-fatal and returned), then print every feature. -/
def PrintDeviceInfo (env : ExpQSEnv) : List Ev × Int :=
  let t0 := [Ev.log .other "*** DEVICE INFORMATION ***"]
  let e1 := env.ePdiNodeMap
  if e1 ≠ 0 then
    (t0 ++ [Ev.call .other "spinCameraGetTLDeviceNodeMap" e1,
            Ev.log .other "Unable to retrieve nodemap. Non-fatal error..."], e1)
  else
    let t1 := t0 ++ [Ev.call .other "spinCameraGetTLDeviceNodeMap" e1]
    let e2 := env.ePdiGetNode
    if e2 ≠ 0 then
      (t1 ++ [Ev.call .other "spinNodeMapGetNode" e2,
              Ev.log .other "Unable to retrieve node. Non-fatal error..."], e2)
    else
      let t2 := t1 ++ [Ev.call .other "spinNodeMapGetNode" e2]
      let e3 := env.ePdiNumFeatures
      if e3 ≠ 0 then
        (t2 ++ [Ev.call .other "spinCategoryGetNumFeatures" e3,
                Ev.log .other "Unable to retrieve number of nodes. Non-fatal error..."], e3)
      else
        let t3 := t2 ++ [Ev.call .other "spinCategoryGetNumFeatures" e3]
        let r := pdiLoop env (List.range env.pdiNumFeatures) (t3, e3)
        (r.1 ++ [Ev.log .other "end of device information"], r.2)

/-- One iteration of the image loop of `AcquireImages`: get the next
image (failure: log, `continue`), check completeness (failures and
incomplete images are released and skipped), then query dimensions,
convert, save, destroy and release, logging each failure as non-fatal. -/
def acqIter (env : ExpQSEnv) (timeout : Int) (i : Nat) : List Ev × Int :=
  let ea := env.eNextImage i
  if ea ≠ 0 then
    ([Ev.calli .acquire "spinCameraGetNextImageEx" timeout ea,
      Ev.log .acquire "Unable to get next image. Non-fatal error..."], ea)
  else
    let t0 := [Ev.calli .acquire "spinCameraGetNextImageEx" timeout ea]
    let eb := env.eIsIncomplete i
    let t1 := t0 ++ [Ev.call .acquire "spinImageIsIncomplete" eb] ++
      (if eb ≠ 0 then [Ev.log .acquire "Unable to determine image completion. Non-fatal error..."]
       else [])
    let isInc := if eb ≠ 0 then false else env.incomplete i
    let t2 := t1 ++
      (if isInc then
        [Ev.call .acquire "spinImageGetStatus" (env.eGetStatus i),
         Ev.log .acquire
           (if env.eGetStatus i ≠ 0 then "Unable to retrieve image status. Non-fatal error..."
            else "Image incomplete with image status...")]
       else [])
    if eb ≠ 0 ∨ isInc then
      let ed := env.eRelease1 i
      (t2 ++ [Ev.call .acquire "spinImageRelease" ed] ++
        (if ed ≠ 0 then [Ev.log .acquire "Unable to release image. Non-fatal error..."] else []),
       ed)
    else
      let ew := env.eWidth i
      let t3 := t2 ++ [Ev.call .acquire "spinImageGetWidth" ew] ++
        (if ew ≠ 0 then [Ev.log .acquire "Unable to retrieve image width. Non-fatal error..."] else [])
      let eh := env.eHeight i
      let t4 := t3 ++ [Ev.call .acquire "spinImageGetHeight" eh] ++
        (if eh ≠ 0 then [Ev.log .acquire "Unable to retrieve image height. Non-fatal error..."] else [])
      let t5 := t4 ++ [Ev.log .acquire "Grabbed image..."]
      let ece := env.eCreateEmpty i
      let t6 := t5 ++ [Ev.call .acquire "spinImageCreateEmpty" ece] ++
        (if ece ≠ 0 then [Ev.log .acquire "Unable to create image. Non-fatal error..."] else [])
      let ecv := env.eConvert i
      let t7 := t6 ++ [Ev.call .acquire "spinImageProcessorConvert" ecv] ++
        (if ecv ≠ 0 then [Ev.log .acquire "Unable to convert image. Non-fatal error..."] else [])
      let esv := env.eSave i
      let t8 := t7 ++ [Ev.call .acquire "spinImageSave" esv,
                       Ev.log .acquire
                         (if esv ≠ 0 then "Unable to save image. Non-fatal error..."
                          else "Image saved at...")]
      let eds := env.eDestroy i
      let t9 := t8 ++ [Ev.call .acquire "spinImageDestroy" eds] ++
        (if eds ≠ 0 then [Ev.log .acquire "Unable to destroy image. Non-fatal error..."] else [])
      let erl := env.eRelease2 i
      (t9 ++ [Ev.call .acquire "spinImageRelease" erl] ++
        (if erl ≠ 0 then [Ev.log .acquire "Unable to release image. Non-fatal error..."] else []),
       erl)

/-- The image loop of `AcquireImages`. -/
def acqLoop (env : ExpQSEnv) (timeout : Int) : List Nat → List Ev × Int → List Ev × Int
  | [], acc => acc
  | i :: rest, acc =>
    let it := acqIter env timeout i
    acqLoop env timeout rest (acc.1 ++ it.1, it.2)

/-- `AcquireImages` of `Exposure_C_Quickspin.c`: set continuous
acquisition mode, begin acquisition, read the serial number and exposure
time (the latter determines the timeout `exposureTime / 1000 + 1000`,
truncated to an integer by the `uint64_t` cast), create an image
processor (non-fatal on failure), grab `k_numImages = 5` images, destroy
the processor and end acquisition. -/
def AcquireImages (env : ExpQSEnv) : List Ev × Int :=
  let t0 := [Ev.log .acquire "*** IMAGE ACQUISITION ***"]
  let e1 := env.eAcqMode
  if e1 ≠ 0 then
    (t0 ++ [Ev.call .acquire "spinEnumerationSetEnumValue" e1,
            Ev.log .acquire "Unable to set acquisition mode to continuous. Aborting..."], e1)
  else
    let t1 := t0 ++ [Ev.call .acquire "spinEnumerationSetEnumValue" e1,
                     Ev.log .acquire "Acquisition mode set to continuous..."]
    let e2 := env.eBegin
    if e2 ≠ 0 then
      (t1 ++ [Ev.call .acquire "spinCameraBeginAcquisition" e2,
              Ev.log .acquire "Unable to begin image acquisition. Aborting..."], e2)
    else
      let t2 := t1 ++ [Ev.call .acquire "spinCameraBeginAcquisition" e2,
                       Ev.log .acquire "Acquiring images..."]
      let e3 := env.eSerial
      let t3 := t2 ++ [Ev.call .acquire "spinStringGetValue" e3] ++
        (if e3 ≠ 0 then [] else [Ev.log .acquire "Device serial number retrieved as..."]) ++
        [Ev.log .acquire "blank line"]
      let e4 := env.eExpGet
      if e4 ≠ 0 then
        (t3 ++ [Ev.call .acquire "spinFloatGetValue" e4,
                Ev.log .acquire "Unable to read exposure time. Aborting..."], e4)
      else
        let t4 := t3 ++ [Ev.call .acquire "spinFloatGetValue" e4]
        let timeout : Int := (env.exposureTime / 1000 + 1000).floor
        let e5 := env.eProcCreate
        let t5 := t4 ++ [Ev.call .acquire "spinImageProcessorCreate" e5] ++
          (if e5 ≠ 0 then [Ev.log .acquire "Unable to create image processor. Non-fatal error..."]
           else [])
        let e6 := env.eProcColor
        let t6 := t5 ++ [Ev.call .acquire "spinImageProcessorSetColorProcessing" e6] ++
          (if e6 ≠ 0 then
            [Ev.log .acquire "Unable to set image processor color processing method. Non-fatal error..."]
           else [])
        let r := acqLoop env timeout (List.range 5) (t6, e6)
        let e7 := env.eProcDestroy
        let t7 := r.1 ++ [Ev.call .acquire "spinImageProcessorDestroy" e7] ++
          (if e7 ≠ 0 then [Ev.log .acquire "Unable to destroy image processor. Non-fatal error..."]
           else [])
        let e8 := env.eEnd
        let t8 := t7 ++ [Ev.call .acquire "spinCameraEndAcquisition" e8] ++
          (if e8 ≠ 0 then [Ev.log .acquire "Unable to end acquisition. Non-fatal error..."]
           else [])
        (t8, e8)

/-- `RunSingleCamera` of `Exposure_C_Quickspin.c`: print device
information (status overwritten unchecked), initialize the camera,
pre-fetch the TL-device and GenICam nodes, configure exposure, acquire
images, reset exposure, deinitialize (failure non-fatal but returned). -/
def RunSingleCamera (env : ExpQSEnv) : List Ev × Int :=
  let tp := (PrintDeviceInfo env).1
  let e1 := env.eInit
  if e1 ≠ 0 then
    (tp ++ [Ev.call .initCam "spinCameraInit" e1,
            Ev.log .initCam "Unable to initialize camera. Aborting..."], e1)
  else
    let t1 := tp ++ [Ev.call .initCam "spinCameraInit" e1]
    let e2 := env.eTLInit
    if e2 ≠ 0 then
      (t1 ++ [Ev.call .other "quickSpinTLDeviceInit" e2,
              Ev.log .other "Unable to pre-fetch TL device nodes. Aborting..."], e2)
    else
      let t2 := t1 ++ [Ev.call .other "quickSpinTLDeviceInit" e2]
      let e3 := env.eQSInit
      if e3 ≠ 0 then
        (t2 ++ [Ev.call .other "quickSpinInit" e3,
                Ev.log .other "Unable to pre-fetch GenICam nodes. Aborting..."], e3)
      else
        let t3 := t2 ++ [Ev.call .other "quickSpinInit" e3]
        let rc := ConfigureExposure env
        if rc.2 ≠ 0 then (t3 ++ rc.1, rc.2)
        else
          let t4 := t3 ++ rc.1
          let ra := AcquireImages env
          if ra.2 ≠ 0 then (t4 ++ ra.1, ra.2)
          else
            let t5 := t4 ++ ra.1
            let rr := ResetExposure env
            if rr.2 ≠ 0 then (t5 ++ rr.1, rr.2)
            else
              let t6 := t5 ++ rr.1
              let e4 := env.eDeInit
              (t6 ++ [Ev.call .deinit "spinCameraDeInit" e4] ++
                (if e4 ≠ 0 then
                  [Ev.log .deinit "Unable to deinitialize camera. Non-fatal error..."]
                 else []),
               e4)

/-- One iteration of the camera loop in `main` of
`Exposure_C_Quickspin.c`, threading the trace and `errReturn`. -/
def runCamIter (env : ExpQSEnv) (i : Nat) (acc : List Ev × Int) : List Ev × Int :=
  let t0 := acc.1 ++ [Ev.log .other "Running example for camera..."]
  let eg := env.eListGet i
  let afterRun :=
    if eg ≠ 0 then
      (t0 ++ [Ev.call .enumerate "spinCameraListGet" eg,
              Ev.log .other "Unable to retrieve camera from list. Aborting..."], eg)
    else
      let r := RunSingleCamera env
      (t0 ++ [Ev.call .enumerate "spinCameraListGet" eg] ++ r.1,
       if r.2 ≠ 0 then r.2 else acc.2)
  let er := env.eCamRelease i
  (afterRun.1 ++ [Ev.call .other "spinCameraRelease" er,
                  Ev.log .other "Camera example complete..."],
   if er ≠ 0 then er else afterRun.2)

/-- The camera loop of `main`. -/
def runCamLoop (env : ExpQSEnv) : List Nat → List Ev × Int → List Ev × Int
  | [], acc => acc
  | i :: rest, acc => runCamLoop env rest (runCamIter env i acc)

/-- `main` of `Exposure_C_Quickspin.c`: obtain the system handle, print
the library version (that call's status is not checked), create and fill
the camera list, read its size, run `RunSingleCamera` on every camera,
then clear and destroy the list and release the system.  With no cameras
the list and system are torn down and -1 returned. -/
def mainExposureQS (env : ExpQSEnv) : List Ev × Int :=
  let t0 := [Ev.log .other "Application build date..."]
  let e1 := env.eSysGet
  if e1 ≠ 0 then
    (t0 ++ [Ev.call .other "spinSystemGetInstance" e1,
            Ev.log .other "Unable to retrieve system instance. Aborting..."], e1)
  else
    let t1 := t0 ++ [Ev.call .other "spinSystemGetInstance" e1,
                     Ev.call .other "spinSystemGetLibraryVersion" env.eLibVer,
                     Ev.log .other "Spinnaker library version..."]
    let e2 := env.eListCreate
    if e2 ≠ 0 then
      (t1 ++ [Ev.call .other "spinCameraListCreateEmpty" e2,
              Ev.log .other "Unable to create camera list. Aborting..."], e2)
    else
      let t2 := t1 ++ [Ev.call .other "spinCameraListCreateEmpty" e2]
      let e3 := env.eGetCams
      if e3 ≠ 0 then
        (t2 ++ [Ev.call .enumerate "spinSystemGetCameras" e3,
                Ev.log .other "Unable to retrieve camera list. Aborting..."], e3)
      else
        let t3 := t2 ++ [Ev.call .enumerate "spinSystemGetCameras" e3]
        let e4 := env.eListSize
        if e4 ≠ 0 then
          (t3 ++ [Ev.call .enumerate "spinCameraListGetSize" e4,
                  Ev.log .other "Unable to retrieve number of cameras. Aborting..."], e4)
        else
          let t4 := t3 ++ [Ev.call .enumerate "spinCameraListGetSize" e4,
                           Ev.log .other "Number of cameras detected..."]
          if env.numCameras = 0 then
            let e5 := env.eListClear
            if e5 ≠ 0 then
              (t4 ++ [Ev.call .other "spinCameraListClear" e5,
                      Ev.log .other "Unable to clear camera list. Aborting..."], e5)
            else
              let t5 := t4 ++ [Ev.call .other "spinCameraListClear" e5]
              let e6 := env.eListDestroy
              if e6 ≠ 0 then
                (t5 ++ [Ev.call .other "spinCameraListDestroy" e6,
                        Ev.log .other "Unable to destroy camera list. Aborting..."], e6)
              else
                let t6 := t5 ++ [Ev.call .other "spinCameraListDestroy" e6]
                let e7 := env.eSysRelease
                if e7 ≠ 0 then
                  (t6 ++ [Ev.call .other "spinSystemReleaseInstance" e7,
                          Ev.log .other "Unable to release system instance. Aborting..."], e7)
                else
                  (t6 ++ [Ev.call .other "spinSystemReleaseInstance" e7,
                          Ev.log .other "Not enough cameras!"], -1)
          else
            let r := runCamLoop env (List.range env.numCameras) (t4, 0)
            let e5 := env.eListClear
            if e5 ≠ 0 then
              (r.1 ++ [Ev.call .other "spinCameraListClear" e5,
                       Ev.log .other "Unable to clear camera list. Aborting..."], e5)
            else
              let t5 := r.1 ++ [Ev.call .other "spinCameraListClear" e5]
              let e6 := env.eListDestroy
              if e6 ≠ 0 then
                (t5 ++ [Ev.call .other "spinCameraListDestroy" e6,
                        Ev.log .other "Unable to destroy camera list. Aborting..."], e6)
              else
                let t6 := t5 ++ [Ev.call .other "spinCameraListDestroy" e6]
                let e7 := env.eSysRelease
                if e7 ≠ 0 then
                  (t6 ++ [Ev.call .other "spinSystemReleaseInstance" e7,
                          Ev.log .other "Unable to release system instance. Aborting..."], e7)
                else
                  (t6 ++ [Ev.call .other "spinSystemReleaseInstance" e7,
                          Ev.log .other "Done! Press Enter to exit..."], r.2)

/-! ## NodeMapInfo_QuickSpin.cpp

Its `main` has a per-camera GenICam loop: initialize the camera, print
three GenICam nodes, deinitialize.  There is no node configuration, no
image acquisition and no reset step. -/

/-- Environment of the NodeMapInfo_QuickSpin per-camera run: readability
of the three printed GenICam nodes. -/
structure NMIEnv where
  exposureReadable : Bool
  blackLevelReadable : Bool
  heightReadable : Bool

/-- `PrintNodeInfo` of `NodeMapInfo_QuickSpin.cpp`: print the node's
value when it is readable, otherwise print `unavailable`. -/
def PrintNodeInfo (readable : Bool) (name : String) : List Ev :=
  if readable then [Ev.call .other name 0, Ev.log .other "node value"]
  else [Ev.log .other "unavailable"]

/-- `PrintGenICamDeviceInfo` of `NodeMapInfo_QuickSpin.cpp`: print the
`ExposureTime`, `BlackLevel` and `Height` nodes. -/
def PrintGenICamDeviceInfo (env : NMIEnv) : List Ev :=
  [Ev.log .other "Exposure time:"] ++ PrintNodeInfo env.exposureReadable "ExposureTime.ToString" ++
  [Ev.log .other "Black level:"] ++ PrintNodeInfo env.blackLevelReadable "BlackLevel.ToString" ++
  [Ev.log .other "Height:"] ++ PrintNodeInfo env.heightReadable "Height.ToString"

/-- The body of the per-camera GenICam loop in `main` of
`NodeMapInfo_QuickSpin.cpp`: `Init()`, print GenICam information,
`DeInit()`. -/
def nmiPerCameraRun (env : NMIEnv) : List Ev :=
  [Ev.call .initCam "Camera.Init" 0] ++ PrintGenICamDeviceInfo env ++
  [Ev.call .deinit "Camera.DeInit" 0]

/-! ## Sequencer.cpp: SetSingleState

C++ node accesses throw on failure instead of returning statuses; the
environment supplies the readability/writability of each node and the
values the camera reports, and every value written to the camera is
recorded in the trace (status 0 stands for the void return of `SetValue`).
`-1` is the function's error return. -/

/-- Environment of `SetSingleState` of `Sequencer.cpp`. -/
structure SeqEnv where
  wSelector : Bool
  rWidth : Bool
  wWidth : Bool
  widthInc : Int
  rHeight : Bool
  wHeight : Bool
  heightInc : Int
  rExposure : Bool
  wExposure : Bool
  exposureMax : ℚ
  rGain : Bool
  wGain : Bool
  gainMax : ℚ
  rTrigSource : Bool
  wTrigSource : Bool
  rTrigFrameStart : Bool
  trigFrameStartValue : Int
  wSetNext : Bool
  wSetSave : Bool

/-- `SetSingleState` of `Sequencer.cpp`: select the sequence number, set
width and height (rounded down to the increment; skipped with a log when
not accessible), set exposure time and gain clamped to their maxima,
set the trigger source, wire the next state
(`finalSequenceIndex = 4` wraps to 0, otherwise `sequenceNumber + 1`)
and save the state. -/
def SetSingleState (env : SeqEnv) (sequenceNumber : Nat)
    (widthToSet heightToSet : Int) (exposureTimeToSet gainToSet : ℚ) : List Ev × Int :=
  if ¬ env.wSelector then
    ([Ev.log .other "Unable to set current state. Aborting..."], -1)
  else
    let t0 := [Ev.calli .other "SequencerSetSelector.SetValue" (sequenceNumber : Int) 0,
               Ev.log .other "Setting state..."]
    let t1 := t0 ++
      (if env.rWidth ∧ env.wWidth then
        let w := if widthToSet.tmod env.widthInc ≠ 0 then
            widthToSet.tdiv env.widthInc * env.widthInc
          else widthToSet
        [Ev.calli .other "Width.SetValue" w 0, Ev.log .other "Width set to..."]
       else [Ev.log .other "Unable to get or set width..."])
    let t2 := t1 ++
      (if env.rHeight ∧ env.wHeight then
        let hv := if heightToSet.tmod env.heightInc ≠ 0 then
            heightToSet.tdiv env.heightInc * env.heightInc
          else heightToSet
        [Ev.calli .other "Height.SetValue" hv 0, Ev.log .other "Height set to..."]
       else [Ev.log .other "Unable to get or set height..."])
    if ¬ (env.rExposure ∧ env.wExposure) then
      (t2 ++ [Ev.log .other "Unable to get or set exposure time (node retrieval). Aborting..."], -1)
    else
      let exposureClamped := if exposureTimeToSet > env.exposureMax then env.exposureMax
        else exposureTimeToSet
      let t3 := t2 ++ [Ev.callv .other "ExposureTime.SetValue" exposureClamped 0,
                       Ev.log .other "Exposure set to..."]
      if ¬ (env.rGain ∧ env.wGain) then
        (t3 ++ [Ev.log .other "Unable to get or set gain (node retrieval). Aborting..."], -1)
      else
        let gainClamped := if gainToSet > env.gainMax then env.gainMax else gainToSet
        let t4 := t3 ++ [Ev.callv .other "Gain.SetValue" gainClamped 0,
                         Ev.log .other "Gain set to..."]
        if ¬ (env.rTrigSource ∧ env.wTrigSource) then
          (t4 ++ [Ev.log .other "Unable to get or set trigger source (node retrieval). Aborting..."], -1)
        else if ¬ env.rTrigFrameStart then
          (t4 ++ [Ev.log .other "Unable to get trigger source (enum entry retrieval). Aborting..."], -1)
        else
          let t5 := t4 ++ [Ev.calli .other "SequencerTriggerSource.SetIntValue" env.trigFrameStartValue 0,
                           Ev.log .other "Trigger source set to start of frame..."]
          if ¬ env.wSetNext then
            (t5 ++ [Ev.log .other "Unable to select next state. Aborting..."], -1)
          else
            let nextVal : Int := if sequenceNumber = 4 then 0 else (sequenceNumber : Int) + 1
            let t6 := t5 ++ [Ev.calli .other "SequencerSetNext.SetValue" nextVal 0,
                             Ev.log .other "Next state set to..."]
            if ¬ env.wSetSave then
              (t6 ++ [Ev.log .other "Unable to save state. Aborting..."], -1)
            else
              (t6 ++ [Ev.call .other "SequencerSetSave.Execute" 0,
                      Ev.log .other "Current state saved..."], 0)

/-! ## EnumerationEvents.cpp: lock discipline of the event-handler list

`SystemEventHandlerImpl` owns one mutex, `eventHandlersMutex`, and three
shared members: `m_system`, `m_interfaceEventHandlerOnSystem`, and the
handler list `m_interfaceEventHandlers`.  Each method is embedded as the
sequence of its accesses: `lock`/`unlock` of the single mutex, operations
on the handler list, accesses to the other two members, SDK calls on
local objects, and log lines. -/

/-- One access performed by a `SystemEventHandlerImpl` method. -/
inductive MEv
  | lock
  | unlock
  | listOp (op : String)
  | memberOp (name : String)
  | sdk (name : String)
  | note (msg : String)
  deriving DecidableEq, Repr

/-- Environment of the `EnumerationEvents` methods: camera and interface
counts, node readability, which list entries match the interface being
processed, the handler-list length when it is scanned, and the state of
the two non-list members. -/
structure EnumEvEnv where
  numCameras : Nat
  serialReadable : Nat → Bool
  numInterfaces : Nat
  interfaceIDReadable : Nat → Bool
  handlerMatches : Nat → Bool
  listSize : Nat
  hasSystemHandler : Bool
  listNonEmpty : Bool

/-- `SystemEventHandlerImpl::OnInterfaceArrival`: update the interface
list, print connected devices, then under the mutex push the new handler
and register it on the interface. -/
def OnInterfaceArrival (env : EnumEvEnv) : List MEv :=
  [MEv.note "interface arrived",
   MEv.memberOp "m_system.UpdateInterfaceList",
   MEv.sdk "Interface.GetCameras"] ++
  (List.range env.numCameras).flatMap (fun i =>
    [MEv.sdk "Camera.GetTLDeviceNodeMap", MEv.sdk "NodeMap.GetNode DeviceSerialNumber"] ++
    (if env.serialReadable i then [MEv.note "device connected"] else [])) ++
  [MEv.lock,
   MEv.listOp "push_back",
   MEv.sdk "Interface.RegisterEventHandler",
   MEv.note "event handler registered",
   MEv.unlock]

/-- The erase scan of `OnInterfaceRemoval`: walk the handler list under
the mutex, erase the first handler whose interface ID matches and stop. -/
def removalScan (env : EnumEvEnv) : List Nat → List MEv
  | [] => []
  | i :: rest =>
    MEv.listOp "index" ::
    (if env.handlerMatches i then [MEv.listOp "erase"] else removalScan env rest)

/-- `SystemEventHandlerImpl::OnInterfaceRemoval`: update the interface
list, then under the mutex find and erase the matching handler. -/
def OnInterfaceRemoval (env : EnumEvEnv) : List MEv :=
  [MEv.note "interface removed",
   MEv.memberOp "m_system.UpdateInterfaceList",
   MEv.lock] ++
  removalScan env (List.range env.listSize) ++
  [MEv.unlock]

/-- `SystemEventHandlerImpl::RegisterInterfaceEventToSystem`: create the
system-level handler when absent and register it; no mutex involved. -/
def RegisterInterfaceEventToSystem (env : EnumEvEnv) : List MEv :=
  [MEv.memberOp "read m_interfaceEventHandlerOnSystem"] ++
  (if ¬ env.hasSystemHandler then [MEv.memberOp "assign m_interfaceEventHandlerOnSystem"] else []) ++
  [MEv.memberOp "m_system.RegisterEventHandler",
   MEv.note "interface event handler registered on the system"]

/-- `SystemEventHandlerImpl::UnregisterInterfaceEventFromSystem`:
unregister and clear the system-level handler; no mutex involved. -/
def UnregisterInterfaceEventFromSystem (env : EnumEvEnv) : List MEv :=
  [MEv.memberOp "read m_interfaceEventHandlerOnSystem"] ++
  (if env.hasSystemHandler then
    [MEv.memberOp "m_system.UnregisterEventHandler",
     MEv.note "interface event handler unregistered from system",
     MEv.memberOp "assign m_interfaceEventHandlerOnSystem"]
   else [])

/-- `SystemEventHandlerImpl::RegisterAllInterfaceEvents`: clear the list
under the mutex, then for each interface create, push and register a
handler under the mutex. -/
def RegisterAllInterfaceEvents (env : EnumEvEnv) : List MEv :=
  [MEv.lock, MEv.listOp "empty"] ++
  (if env.listNonEmpty then [MEv.listOp "clear"] else []) ++
  [MEv.unlock,
   MEv.memberOp "m_system.GetInterfaces",
   MEv.sdk "InterfaceList.GetSize"] ++
  (List.range env.numInterfaces).flatMap (fun i =>
    [MEv.sdk "InterfaceList.GetByIndex", MEv.sdk "Interface.GetTLNodeMap",
     MEv.sdk "NodeMap.GetNode InterfaceID"] ++
    (if env.interfaceIDReadable i then
      [MEv.sdk "InterfaceID.GetValue",
       MEv.lock,
       MEv.listOp "push_back",
       MEv.listOp "index",
       MEv.sdk "Interface.RegisterEventHandler",
       MEv.note "event handler registered",
       MEv.unlock]
     else [])) ++
  [MEv.note "blank line"]

/-- The per-interface unregistration scan of
`UnregisterAllInterfaceEvents`: under the mutex, unregister every
matching handler. -/
def unregisterScan (env : EnumEvEnv) : List Nat → List MEv
  | [] => []
  | j :: rest =>
    [MEv.listOp "size", MEv.listOp "index"] ++
    (if env.handlerMatches j then [MEv.sdk "Interface.UnregisterEventHandler"] else []) ++
    unregisterScan env rest

/-- `SystemEventHandlerImpl::UnregisterAllInterfaceEvents`: for each
interface, unregister matching handlers under the mutex; finally clear
the list under the mutex. -/
def UnregisterAllInterfaceEvents (env : EnumEvEnv) : List MEv :=
  [MEv.memberOp "m_system.GetInterfaces",
   MEv.sdk "InterfaceList.GetSize"] ++
  (List.range env.numInterfaces).flatMap (fun i =>
    [MEv.sdk "InterfaceList.GetByIndex", MEv.sdk "Interface.GetTLNodeMap",
     MEv.sdk "NodeMap.GetNode InterfaceID"] ++
    (if env.interfaceIDReadable i then
      [MEv.sdk "InterfaceID.GetValue", MEv.lock] ++
      unregisterScan env (List.range env.listSize) ++
      [MEv.unlock]
     else [])) ++
  [MEv.lock, MEv.listOp "clear",
   MEv.note "event handler unregistered from interfaces", MEv.unlock]

/-- Lock-discipline machine: track the mutex depth; `none` marks a
violation.  A list operation is a violation at depth 0 (access outside
the critical section); an access to the other shared members is a
violation at positive depth (the mutex would be guarding state other
than the list); unlocking at depth 0 is a violation. -/
def lockStep : Option Nat → MEv → Option Nat
  | none, _ => none
  | some d, .lock => some (d + 1)
  | some d, .unlock => if d = 0 then none else some (d - 1)
  | some d, .listOp _ => if d = 0 then none else some d
  | some d, .memberOp _ => if d = 0 then some d else none
  | some d, .sdk _ => some d
  | some d, .note _ => some d

/-- Run the lock-discipline machine over a trace. -/
def lockRun (l : List MEv) (s : Option Nat) : Option Nat := l.foldl lockStep s

/-- A method trace is disciplined when, started outside the critical
section, it performs no violation and releases the mutex by its end. -/
def mutexDisciplined (l : List MEv) : Prop := lockRun l (some 0) = some 0

/-! ## Claim theorems -/

/-- C1: for every well-formed CameraControl record, deserializing the CDR
byte stream produced by serializing it
(`cdr_serialize_flir_camera_msgs__msg__CameraControl` followed by
`cdr_deserialize_flir_camera_msgs__msg__CameraControl`) yields the
original record, equal in every field (header, exposure_time, gain),
consuming exactly the produced bytes. -/
theorem camera_control_serde_round_trip (m : flir_camera_msgs__msg__CameraControl)
    (hwf : wfCameraControl m) :
    cdr_deserialize_flir_camera_msgs__msg__CameraControl 0
        (cdr_serialize_flir_camera_msgs__msg__CameraControl 0 m) =
      some (m, (cdr_serialize_flir_camera_msgs__msg__CameraControl 0 m).length, []) := by
  have h := camera_control_round_trip_from 0 m [] hwf
  simpa using h

/-- A concrete CameraControl record: stamp 7s/2000ns, frame id "cam",
exposure 5000 us, gain pattern 0x40400000 (3.0f). -/
def ccSample : flir_camera_msgs__msg__CameraControl :=
  ⟨⟨⟨7, 2000⟩, [99, 97, 109]⟩, 5000, 1077936128⟩

/-- Witness for C1 at `ccSample`. -/
theorem camera_control_serde_round_trip_witness :
    wfCameraControl ccSample ∧
    cdr_deserialize_flir_camera_msgs__msg__CameraControl 0
        (cdr_serialize_flir_camera_msgs__msg__CameraControl 0 ccSample) =
      some (ccSample, (cdr_serialize_flir_camera_msgs__msg__CameraControl 0 ccSample).length, []) :=
  ⟨by decide, camera_control_serde_round_trip ccSample (by decide)⟩

/-- C2: the camera-control record type consists of exactly three fields
in this order: a `std_msgs/Header` timestamp header, an unsigned 32-bit
`exposure_time` whose interface comment counts it in microseconds, and a
floating-point `gain` whose comment counts it in decibels; moreover the
embedded raw `.msg` source parses to exactly these members. -/
theorem camera_control_record_shape :
    flir_camera_msgs__msg__CameraControl__FIELDS.map RosField.fname =
        ["header", "exposure_time", "gain"] ∧
    flir_camera_msgs__msg__CameraControl__FIELDS.map RosField.ftype =
        [.nested "std_msgs/Header", .uint32, .float32] ∧
    flir_camera_msgs__msg__CameraControl__FIELDS.length = 3 ∧
    parseMsgMembers CameraControl_raw_source_lines =
      flir_camera_msgs__msg__CameraControl__FIELDS.map
        (fun f => (renderMsgType f.ftype, f.fname)) ∧
    (flir_camera_msgs__msg__CameraControl__FIELDS.map RosField.comment).get? 1 =
      some "set exposure time in microseconds" ∧
    (flir_camera_msgs__msg__CameraControl__FIELDS.map RosField.comment).get? 2 =
      some "set gain in db" := by
  decide

/-- C3: the image-metadata record type consists of exactly six fields in
this order: a timestamp header, a `uint64` camera-supplied timestamp, an
`int16` computed brightness whose interface comment gives -1 as the
invalid sentinel, a `uint32` exposure time in microseconds, a `uint32`
maximum allowed exposure time in microseconds, and a floating-point
gain. -/
theorem image_meta_data_record_shape :
    flir_camera_msgs__msg__ImageMetaData__FIELDS.map RosField.fname =
        ["header", "camera_time", "brightness", "exposure_time", "max_exposure_time", "gain"] ∧
    flir_camera_msgs__msg__ImageMetaData__FIELDS.map RosField.ftype =
        [.nested "std_msgs/Header", .uint64, .int16, .uint32, .uint32, .float32] ∧
    flir_camera_msgs__msg__ImageMetaData__FIELDS.length = 6 ∧
    (flir_camera_msgs__msg__ImageMetaData__FIELDS.map RosField.comment).get? 1 =
      some "time stamp produced by camera, interpretation depends on camera model" ∧
    (flir_camera_msgs__msg__ImageMetaData__FIELDS.map RosField.comment).get? 2 =
      some "computed brightness, either 0...255 (valid) or -1 (invalid)" ∧
    (flir_camera_msgs__msg__ImageMetaData__FIELDS.map RosField.comment).get? 3 =
      some "exposure time in microseconds" ∧
    (flir_camera_msgs__msg__ImageMetaData__FIELDS.map RosField.comment).get? 4 =
      some "max allowed exposure time in microseconds" := by
  decide

/-- An image-metadata record with brightness -5: outside [0,255] and not
the -1 sentinel, yet accepted and reproduced by the record's
serialization operations. -/
def imdBad : flir_camera_msgs__msg__ImageMetaData :=
  ⟨⟨⟨0, 0⟩, []⟩, 0, -5, 0, 0, 0⟩

/-- C4 counterexample: the operations do not confine brightness to
[0,255] or the sentinel -1: the record `imdBad` with brightness -5 serializes and
deserializes to itself. -/
theorem image_meta_data_brightness_out_of_range_round_trips :
    cdr_deserialize_flir_camera_msgs__msg__ImageMetaData 0
        (cdr_serialize_flir_camera_msgs__msg__ImageMetaData 0 imdBad) =
      some (imdBad, (cdr_serialize_flir_camera_msgs__msg__ImageMetaData 0 imdBad).length, []) ∧
    imdBad.brightness = -5 ∧
    ¬ ((0 ≤ imdBad.brightness ∧ imdBad.brightness ≤ 255) ∨ imdBad.brightness = -1) := by
  refine ⟨?_, by decide, by decide⟩
  have h := image_meta_data_round_trip_from 0 imdBad [] (by decide)
  simpa using h

/-- C4 (amended): the record's operations accept and preserve every
`int16` brightness value; the range [0,255] with sentinel -1 is
documented hardware semantics, not an enforced invariant: any
well-formed record (brightness any `int16`) round-trips unchanged. -/
theorem image_meta_data_round_trip_any_brightness
    (m : flir_camera_msgs__msg__ImageMetaData) (hwf : wfImageMetaData m) :
    cdr_deserialize_flir_camera_msgs__msg__ImageMetaData 0
        (cdr_serialize_flir_camera_msgs__msg__ImageMetaData 0 m) =
      some (m, (cdr_serialize_flir_camera_msgs__msg__ImageMetaData 0 m).length, []) := by
  have h := image_meta_data_round_trip_from 0 m [] hwf
  simpa using h

/-- An image-metadata record with brightness 300 (valid int16, outside
the documented [0,255] range). -/
def imdSample : flir_camera_msgs__msg__ImageMetaData :=
  ⟨⟨⟨1, 5⟩, [102]⟩, 123456789, 300, 10000, 30000, 7⟩

/-- Witness for the amended C4 at `imdSample`. -/
theorem image_meta_data_round_trip_any_brightness_witness :
    wfImageMetaData imdSample ∧
    cdr_deserialize_flir_camera_msgs__msg__ImageMetaData 0
        (cdr_serialize_flir_camera_msgs__msg__ImageMetaData 0 imdSample) =
      some (imdSample, (cdr_serialize_flir_camera_msgs__msg__ImageMetaData 0 imdSample).length, []) :=
  ⟨by decide, image_meta_data_round_trip_any_brightness imdSample (by decide)⟩

/-- C8: for every CameraControl record and every starting alignment,
`get_serialized_size_flir_camera_msgs__msg__CameraControl` returns
exactly the number of bytes the CDR serializer writes for that record. -/
theorem camera_control_serialized_size_exact
    (m : flir_camera_msgs__msg__CameraControl) (current_alignment : Nat) :
    get_serialized_size_flir_camera_msgs__msg__CameraControl m current_alignment =
      (cdr_serialize_flir_camera_msgs__msg__CameraControl current_alignment m).length :=
  (camera_control_size_aux current_alignment m).symm

/-- An all-success environment for `Exposure_C_Quickspin.c`: every SDK
call succeeds, one device-info feature, one camera, max exposure
1000000 us, current exposure 10000 us. -/
def envOK : ExpQSEnv where
  eAutoOff := 0
  eGetMax := 0
  exposureTimeMax := 1000000
  eSetVal := 0
  eAutoCont := 0
  ePdiNodeMap := 0
  ePdiGetNode := 0
  ePdiNumFeatures := 0
  pdiNumFeatures := 1
  ePdiFeature := fun _ => 0
  ePdiType1 := fun _ => 0
  ePdiName := fun _ => 0
  ePdiReadable := fun _ => 0
  pdiReadable := fun _ => true
  ePdiType2 := fun _ => 0
  ePdiToString := fun _ => 0
  eAcqMode := 0
  eBegin := 0
  eSerial := 0
  eExpGet := 0
  exposureTime := 10000
  eProcCreate := 0
  eProcColor := 0
  eNextImage := fun _ => 0
  eIsIncomplete := fun _ => 0
  incomplete := fun _ => false
  eGetStatus := fun _ => 0
  eRelease1 := fun _ => 0
  eWidth := fun _ => 0
  eHeight := fun _ => 0
  eCreateEmpty := fun _ => 0
  eConvert := fun _ => 0
  eSave := fun _ => 0
  eDestroy := fun _ => 0
  eRelease2 := fun _ => 0
  eProcDestroy := 0
  eEnd := 0
  eInit := 0
  eTLInit := 0
  eQSInit := 0
  eDeInit := 0
  eSysGet := 0
  eLibVer := 0
  eListCreate := 0
  eGetCams := 0
  eListSize := 0
  numCameras := 1
  eListGet := fun _ => 0
  eCamRelease := fun _ => 0
  eListClear := 0
  eListDestroy := 0
  eSysRelease := 0

/-- Environment where the device-info loop's first feature retrieval
fails with status 5 among two features. -/
def envPdiFail : ExpQSEnv :=
  { envOK with pdiNumFeatures := 2, ePdiFeature := fun i => if i = 0 then 5 else 0 }

/-- C5 counterexample: in `PrintDeviceInfo` a failing SDK call
(`spinCategoryGetFeatureByIndex`, status 5) is logged as non-fatal and
the operation does not abort: six further SDK calls follow and the
function returns success (0), so a non-success status does not make the
current operation abort. -/
theorem print_device_info_continues_after_failure :
    PrintDeviceInfo envPdiFail =
      ([Ev.log .other "*** DEVICE INFORMATION ***",
        Ev.call .other "spinCameraGetTLDeviceNodeMap" 0,
        Ev.call .other "spinNodeMapGetNode" 0,
        Ev.call .other "spinCategoryGetNumFeatures" 0,
        Ev.call .other "spinCategoryGetFeatureByIndex" 5,
        Ev.log .other "Unable to retrieve node. Non-fatal error...",
        Ev.call .other "spinCategoryGetFeatureByIndex" 0,
        Ev.call .other "spinNodeGetType" 0,
        Ev.call .other "spinNodeGetName" 0,
        Ev.call .other "spinNodeIsReadable" 0,
        Ev.call .other "spinNodeGetType" 0,
        Ev.call .other "spinNodeToString" 0,
        Ev.log .other "feature name: feature value",
        Ev.log .other "end of device information"], 0) ∧
    callsOf (PrintDeviceInfo envPdiFail).1 =
      [("spinCameraGetTLDeviceNodeMap", 0), ("spinNodeMapGetNode", 0),
       ("spinCategoryGetNumFeatures", 0), ("spinCategoryGetFeatureByIndex", 5),
       ("spinCategoryGetFeatureByIndex", 0), ("spinNodeGetType", 0),
       ("spinNodeGetName", 0), ("spinNodeIsReadable", 0), ("spinNodeGetType", 0),
       ("spinNodeToString", 0)] ∧
    (PrintDeviceInfo envPdiFail).2 = 0 := by
  decide

/-- C5 (amended): in `ConfigureExposure` every SDK call's status is
checked and on the first non-success status the failure is logged and
the function returns that status immediately, performing no further SDK
calls; in the other operations a non-success status need not abort: the
device-info feature loop logs the failure as non-fatal and continues
with the next feature. -/
theorem configure_exposure_aborts_on_first_failure (env : ExpQSEnv) :
    (env.eAutoOff ≠ 0 →
      ConfigureExposure env =
        ([Ev.log .configure "*** CONFIGURING EXPOSURE ***",
          Ev.call .configure "spinEnumerationSetEnumValue" env.eAutoOff,
          Ev.log .configure "Unable to disable automatic exposure. Aborting with error..."],
         env.eAutoOff)) ∧
    (env.eAutoOff = 0 → env.eGetMax ≠ 0 →
      ConfigureExposure env =
        ([Ev.log .configure "*** CONFIGURING EXPOSURE ***",
          Ev.call .configure "spinEnumerationSetEnumValue" 0,
          Ev.log .configure "Automatic exposure disabled...",
          Ev.call .configure "spinFloatGetMax" env.eGetMax,
          Ev.log .configure "Unable to set exposure time. Aborting with error..."],
         env.eGetMax)) ∧
    (env.eAutoOff = 0 → env.eGetMax = 0 → env.eSetVal ≠ 0 →
      ConfigureExposure env =
        ([Ev.log .configure "*** CONFIGURING EXPOSURE ***",
          Ev.call .configure "spinEnumerationSetEnumValue" 0,
          Ev.log .configure "Automatic exposure disabled...",
          Ev.call .configure "spinFloatGetMax" 0,
          Ev.callv .configure "spinFloatSetValue"
            (if 2000000 > env.exposureTimeMax then env.exposureTimeMax else 2000000)
            env.eSetVal,
          Ev.log .configure "Unable to set exposure time. Aborting with error..."],
         env.eSetVal)) ∧
    (∀ i, env.ePdiFeature i ≠ 0 →
      pdiIter env i =
        ([Ev.call .other "spinCategoryGetFeatureByIndex" (env.ePdiFeature i),
          Ev.log .other "Unable to retrieve node. Non-fatal error..."],
         env.ePdiFeature i)) := by
  refine ⟨fun h1 => ?_, fun h1 h2 => ?_, fun h1 h2 h3 => ?_, fun i hi => ?_⟩
  · simp [ConfigureExposure, h1]
  · simp [ConfigureExposure, h1, h2]
  · simp [ConfigureExposure, h1, h2, h3]
  · simp [pdiIter, hi]

/-- Environment whose first `ConfigureExposure` call fails. -/
def envAutoOffFail : ExpQSEnv := { envOK with eAutoOff := 7 }

/-- Environment whose `spinFloatGetMax` call fails. -/
def envGetMaxFail : ExpQSEnv := { envOK with eGetMax := 3 }

/-- Environment whose `spinFloatSetValue` call fails. -/
def envSetValFail : ExpQSEnv := { envOK with eSetVal := 9 }

/-- Witness for the amended C5: each failing branch at a concrete
environment. -/
theorem configure_exposure_aborts_on_first_failure_witness :
    ConfigureExposure envAutoOffFail =
      ([Ev.log .configure "*** CONFIGURING EXPOSURE ***",
        Ev.call .configure "spinEnumerationSetEnumValue" 7,
        Ev.log .configure "Unable to disable automatic exposure. Aborting with error..."], 7) ∧
    (ConfigureExposure envGetMaxFail).2 = 3 ∧
    (ConfigureExposure envSetValFail).2 = 9 ∧
    pdiIter envPdiFail 0 =
      ([Ev.call .other "spinCategoryGetFeatureByIndex" 5,
        Ev.log .other "Unable to retrieve node. Non-fatal error..."], 5) :=
  ⟨(configure_exposure_aborts_on_first_failure envAutoOffFail).1 (by decide),
   by rw [(configure_exposure_aborts_on_first_failure envGetMaxFail).2.1 (by decide) (by decide)]; rfl,
   by rw [(configure_exposure_aborts_on_first_failure envSetValFail).2.2.1 (by decide) (by decide) (by decide)]; rfl,
   (configure_exposure_aborts_on_first_failure envPdiFail).2.2.2 0 (by decide)⟩

/-! ## Values written to the camera -/

/-- The float values passed to SDK calls with the given name, in trace
order. -/
def floatWrites (name : String) (l : List Ev) : List ℚ :=
  l.filterMap fun e =>
    match e with
    | .callv _ n v _ => if n = name then some v else none
    | _ => none

/-- The integer values passed to SDK calls with the given name, in trace
order. -/
def intWrites (name : String) (l : List Ev) : List Int :=
  l.filterMap fun e =>
    match e with
    | .calli _ n v _ => if n = name then some v else none
    | _ => none

@[simp] theorem floatWrites_nil (n : String) : floatWrites n [] = [] := rfl

@[simp] theorem floatWrites_append (n : String) (l1 l2 : List Ev) :
    floatWrites n (l1 ++ l2) = floatWrites n l1 ++ floatWrites n l2 :=
  List.filterMap_append l1 l2 _

@[simp] theorem floatWrites_cons_call (n : String) (t : Step) (s : String) (st : Int)
    (l : List Ev) : floatWrites n (Ev.call t s st :: l) = floatWrites n l := by
  simp [floatWrites]

@[simp] theorem floatWrites_cons_calli (n : String) (t : Step) (s : String) (v st : Int)
    (l : List Ev) : floatWrites n (Ev.calli t s v st :: l) = floatWrites n l := by
  simp [floatWrites]

@[simp] theorem floatWrites_cons_log (n : String) (t : Step) (m : String) (l : List Ev) :
    floatWrites n (Ev.log t m :: l) = floatWrites n l := by
  simp [floatWrites]

@[simp] theorem floatWrites_cons_callv (n : String) (t : Step) (s : String) (v : ℚ) (st : Int)
    (l : List Ev) :
    floatWrites n (Ev.callv t s v st :: l) =
      if s = n then v :: floatWrites n l else floatWrites n l := by
  simp only [floatWrites, List.filterMap_cons]
  split <;> simp_all [floatWrites]

@[simp] theorem floatWrites_ite (n : String) (c : Prop) [Decidable c] (l1 l2 : List Ev) :
    floatWrites n (if c then l1 else l2) = if c then floatWrites n l1 else floatWrites n l2 :=
  apply_ite (floatWrites n) c l1 l2

@[simp] theorem intWrites_nil (n : String) : intWrites n [] = [] := rfl

@[simp] theorem intWrites_append (n : String) (l1 l2 : List Ev) :
    intWrites n (l1 ++ l2) = intWrites n l1 ++ intWrites n l2 :=
  List.filterMap_append l1 l2 _

@[simp] theorem intWrites_cons_call (n : String) (t : Step) (s : String) (st : Int)
    (l : List Ev) : intWrites n (Ev.call t s st :: l) = intWrites n l := by
  simp [intWrites]

@[simp] theorem intWrites_cons_callv (n : String) (t : Step) (s : String) (v : ℚ) (st : Int)
    (l : List Ev) : intWrites n (Ev.callv t s v st :: l) = intWrites n l := by
  simp [intWrites]

@[simp] theorem intWrites_cons_log (n : String) (t : Step) (m : String) (l : List Ev) :
    intWrites n (Ev.log t m :: l) = intWrites n l := by
  simp [intWrites]

@[simp] theorem intWrites_cons_calli (n : String) (t : Step) (s : String) (v : Int) (st : Int)
    (l : List Ev) :
    intWrites n (Ev.calli t s v st :: l) =
      if s = n then v :: intWrites n l else intWrites n l := by
  simp only [intWrites, List.filterMap_cons]
  split <;> simp_all [intWrites]

@[simp] theorem intWrites_ite (n : String) (c : Prop) [Decidable c] (l1 l2 : List Ev) :
    intWrites n (if c then l1 else l2) = if c then intWrites n l1 else intWrites n l2 :=
  apply_ite (intWrites n) c l1 l2

@[simp] theorem prodFst_ite {α β : Type} (c : Prop) [Decidable c] (p1 p2 : α × β) :
    (if c then p1 else p2).1 = if c then p1.1 else p2.1 :=
  apply_ite Prod.fst c p1 p2

/-- The source clamp `if (toSet > max) toSet = max` computes the minimum. -/
theorem clamp_eq_min (a b : ℚ) : (if a > b then b else a) = min a b := by
  rw [min_def]; split_ifs <;> first | rfl | linarith

set_option linter.unnecessarySeqFocus false in
/-- C9: whenever the example programs set an exposure time or gain on the
camera, the value written never exceeds the camera-reported maximum:
`ConfigureExposure` writes exactly min(2000000.0, exposureTimeMax), and
`SetSingleState` clamps `exposureTimeToSet` to `exposureTimeMax` and
`gainToSet` to `gainMax` before writing. -/
theorem exposure_and_gain_writes_never_exceed_max (env : ExpQSEnv) (senv : SeqEnv)
    (seq : Nat) (w h : Int) (e g : ℚ) :
    (∀ v ∈ floatWrites "spinFloatSetValue" (ConfigureExposure env).1,
        v = min 2000000 env.exposureTimeMax ∧ v ≤ env.exposureTimeMax) ∧
    (∀ v ∈ floatWrites "ExposureTime.SetValue" (SetSingleState senv seq w h e g).1,
        v ≤ senv.exposureMax) ∧
    (∀ v ∈ floatWrites "Gain.SetValue" (SetSingleState senv seq w h e g).1,
        v ≤ senv.gainMax) := by
  refine ⟨?_, ?_, ?_⟩
  · intro v hv
    unfold ConfigureExposure at hv
    simp at hv
    split_ifs at hv <;> simp_all <;> linarith
  · intro v hv
    unfold SetSingleState at hv
    simp at hv
    split_ifs at hv <;> simp_all
  · intro v hv
    unfold SetSingleState at hv
    simp at hv
    split_ifs at hv <;> simp_all

/-- A Sequencer environment with every node accessible, maximum exposure
500 us and maximum gain 10 dB. -/
def senvOK : SeqEnv where
  wSelector := true
  rWidth := true
  wWidth := true
  widthInc := 4
  rHeight := true
  wHeight := true
  heightInc := 2
  rExposure := true
  wExposure := true
  exposureMax := 500
  rGain := true
  wGain := true
  gainMax := 10
  rTrigSource := true
  wTrigSource := true
  rTrigFrameStart := true
  trigFrameStartValue := 1
  wSetNext := true
  wSetSave := true

/-- Witness for C9: with max exposure 1000000 us, `ConfigureExposure`
writes exactly 1000000 = min(2000000, 1000000); with requested exposure
800 us against max 500 us and requested gain 15 dB against max 10 dB,
`SetSingleState` writes the clamped 500 and 10. -/
theorem exposure_and_gain_writes_never_exceed_max_witness :
    ((1000000 : ℚ) = min 2000000 envOK.exposureTimeMax ∧
      (1000000 : ℚ) ≤ envOK.exposureTimeMax) ∧
    (500 : ℚ) ≤ senvOK.exposureMax ∧
    (10 : ℚ) ≤ senvOK.gainMax :=
  ⟨(exposure_and_gain_writes_never_exceed_max envOK senvOK 0 640 480 800 15).1
      1000000 (by decide),
   (exposure_and_gain_writes_never_exceed_max envOK senvOK 0 640 480 800 15).2.1
      500 (by decide),
   (exposure_and_gain_writes_never_exceed_max envOK senvOK 0 640 480 800 15).2.2
      10 (by decide)⟩

/-- The next-state function the Sequencer example programs into the
camera: state 4 wraps to 0, otherwise the successor. -/
def seqNext (s : Fin 5) : Fin 5 := if s.val = 4 then 0 else s + 1

/-- C10: whenever `SetSingleState` reaches the `SequencerSetNext` write
(selector, exposure, gain, trigger and next-state nodes accessible), the
value written is `sequenceNumber + 1` except for the final state 4 whose
next state is 0; this next-state map is a bijection on the five states
forming a single cycle (every state reaches every state within five
steps). -/
theorem sequencer_next_state_single_cycle (env : SeqEnv) (seq : Nat)
    (w h : Int) (e g : ℚ)
    (hsel : env.wSelector = true)
    (hexp : env.rExposure = true ∧ env.wExposure = true)
    (hgain : env.rGain = true ∧ env.wGain = true)
    (htr : env.rTrigSource = true ∧ env.wTrigSource = true)
    (htf : env.rTrigFrameStart = true)
    (hnext : env.wSetNext = true)
    (hseq : seq < 5) :
    intWrites "SequencerSetNext.SetValue" (SetSingleState env seq w h e g).1 =
      [if seq = 4 then 0 else (seq : Int) + 1] ∧
    ((seqNext ⟨seq, hseq⟩).val : Int) = (if seq = 4 then 0 else (seq : Int) + 1) ∧
    Function.Bijective seqNext ∧
    (∀ s t : Fin 5, ∃ k : Fin 5, seqNext^[k.val] s = t) := by
  refine ⟨?_, ?_, by decide, by decide⟩
  · unfold SetSingleState
    simp [hsel, hexp.1, hexp.2, hgain.1, hgain.2, htr.1, htr.2, htf, hnext]
  · by_cases h4 : seq = 4
    · subst h4
      simp [seqNext]
    · simp only [seqNext, apply_ite (Fin.val : Fin 5 → Nat), Fin.add_def, Fin.val_one]
      simp [h4]
      omega

/-- Witness for C10 at state 2 in an all-accessible environment: the
next-state write is 3. -/
theorem sequencer_next_state_single_cycle_witness :
    intWrites "SequencerSetNext.SetValue" (SetSingleState senvOK 2 640 480 100 5).1 =
      [if 2 = 4 then 0 else (2 : Int) + 1] ∧
    ((seqNext ⟨2, by omega⟩).val : Int) = (if 2 = 4 then 0 else (2 : Int) + 1) ∧
    Function.Bijective seqNext ∧
    (∀ s t : Fin 5, ∃ k : Fin 5, seqNext^[k.val] s = t) :=
  sequencer_next_state_single_cycle senvOK 2 640 480 100 5 rfl ⟨rfl, rfl⟩ ⟨rfl, rfl⟩
    ⟨rfl, rfl⟩ rfl rfl (by omega)

@[simp] theorem lockRun_nil (s : Option Nat) : lockRun [] s = s := rfl

@[simp] theorem lockRun_cons (e : MEv) (l : List MEv) (s : Option Nat) :
    lockRun (e :: l) s = lockRun l (lockStep s e) := rfl

@[simp] theorem lockRun_append (l1 l2 : List MEv) (s : Option Nat) :
    lockRun (l1 ++ l2) s = lockRun l2 (lockRun l1 s) := by
  simp [lockRun]

@[simp] theorem lockRun_ite (c : Prop) [Decidable c] (l1 l2 : List MEv) (s : Option Nat) :
    lockRun (if c then l1 else l2) s = if c then lockRun l1 s else lockRun l2 s :=
  apply_ite (lockRun · s) c l1 l2

theorem lockRun_flatMap {α : Type} (f : α → List MEv) (l : List α) (d : Nat)
    (h : ∀ i ∈ l, ∀ d', lockRun (f i) (some d') = some d') :
    lockRun (l.flatMap f) (some d) = some d := by
  induction l with
  | nil => rfl
  | cons a as ih =>
    rw [List.flatMap_cons, lockRun_append, h a (by simp)]
    exact ih fun i hi => h i (by simp [hi])

theorem removalScan_preserves (env : EnumEvEnv) (l : List Nat) (d : Nat) :
    lockRun (removalScan env l) (some (d + 1)) = some (d + 1) := by
  induction l with
  | nil => rfl
  | cons a as ih =>
    by_cases hc : env.handlerMatches a <;> simp [removalScan, hc, lockStep, ih]

theorem unregisterScan_preserves (env : EnumEvEnv) (l : List Nat) (d : Nat) :
    lockRun (unregisterScan env l) (some (d + 1)) = some (d + 1) := by
  induction l with
  | nil => rfl
  | cons a as ih =>
    by_cases hc : env.handlerMatches a <;> simp [unregisterScan, hc, lockStep, ih]

/-- C7: in the EnumerationEvents example the one mutex
(`eventHandlersMutex`, the single `lock`/`unlock` pair of the model)
guards solely the handler list: in every method of
`SystemEventHandlerImpl`, for every environment, the lock-discipline
machine accepts the trace — every handler-list operation happens with
the mutex held, no access to the other shared members (`m_system`,
`m_interfaceEventHandlerOnSystem`) happens with the mutex held, and
locking is balanced. -/
theorem enumeration_events_mutex_guards_only_handler_list (env : EnumEvEnv) :
    mutexDisciplined (OnInterfaceArrival env) ∧
    mutexDisciplined (OnInterfaceRemoval env) ∧
    mutexDisciplined (RegisterInterfaceEventToSystem env) ∧
    mutexDisciplined (UnregisterInterfaceEventFromSystem env) ∧
    mutexDisciplined (RegisterAllInterfaceEvents env) ∧
    mutexDisciplined (UnregisterAllInterfaceEvents env) := by
  refine ⟨?_, ?_, ?_, ?_, ?_, ?_⟩
  · unfold mutexDisciplined OnInterfaceArrival
    have hloop : lockRun ((List.range env.numCameras).flatMap fun i =>
        [MEv.sdk "Camera.GetTLDeviceNodeMap", MEv.sdk "NodeMap.GetNode DeviceSerialNumber"] ++
        (if env.serialReadable i then [MEv.note "device connected"] else [])) (some 0) =
        some 0 := by
      apply lockRun_flatMap
      intro i _ d'
      by_cases hc : env.serialReadable i <;> simp [hc, lockStep]
    have h1 : lockRun [MEv.note "interface arrived",
        MEv.memberOp "m_system.UpdateInterfaceList", MEv.sdk "Interface.GetCameras"]
        (some 0) = some 0 := by simp [lockStep]
    rw [lockRun_append, lockRun_append, h1, hloop]
    simp [lockStep]
  · unfold mutexDisciplined OnInterfaceRemoval
    have h1 : lockRun [MEv.note "interface removed",
        MEv.memberOp "m_system.UpdateInterfaceList", MEv.lock] (some 0) = some 1 := by
      simp [lockStep]
    rw [lockRun_append, lockRun_append, h1, removalScan_preserves env _ 0]
    simp [lockStep]
  · unfold mutexDisciplined RegisterInterfaceEventToSystem
    by_cases hc : env.hasSystemHandler <;> simp [hc, lockStep]
  · unfold mutexDisciplined UnregisterInterfaceEventFromSystem
    by_cases hc : env.hasSystemHandler <;> simp [hc, lockStep]
  · unfold mutexDisciplined RegisterAllInterfaceEvents
    have hloop : lockRun ((List.range env.numInterfaces).flatMap fun i =>
        [MEv.sdk "InterfaceList.GetByIndex", MEv.sdk "Interface.GetTLNodeMap",
         MEv.sdk "NodeMap.GetNode InterfaceID"] ++
        (if env.interfaceIDReadable i then
          [MEv.sdk "InterfaceID.GetValue", MEv.lock, MEv.listOp "push_back",
           MEv.listOp "index", MEv.sdk "Interface.RegisterEventHandler",
           MEv.note "event handler registered", MEv.unlock]
         else [])) (some 0) = some 0 := by
      apply lockRun_flatMap
      intro i _ d'
      by_cases hc : env.interfaceIDReadable i <;> simp [hc, lockStep]
    have h1 : lockRun [MEv.lock, MEv.listOp "empty"] (some 0) = some 1 := by
      simp [lockStep]
    have h2 : lockRun (if env.listNonEmpty then [MEv.listOp "clear"] else []) (some 1) =
        some 1 := by
      by_cases hne : env.listNonEmpty <;> simp [hne, lockStep]
    have h3 : lockRun [MEv.unlock, MEv.memberOp "m_system.GetInterfaces",
        MEv.sdk "InterfaceList.GetSize"] (some 1) = some 0 := by
      simp [lockStep]
    rw [lockRun_append, lockRun_append, lockRun_append, lockRun_append,
      h1, h2, h3, hloop]
    simp [lockStep]
  · unfold mutexDisciplined UnregisterAllInterfaceEvents
    have hloop : lockRun ((List.range env.numInterfaces).flatMap fun i =>
        [MEv.sdk "InterfaceList.GetByIndex", MEv.sdk "Interface.GetTLNodeMap",
         MEv.sdk "NodeMap.GetNode InterfaceID"] ++
        (if env.interfaceIDReadable i then
          [MEv.sdk "InterfaceID.GetValue", MEv.lock] ++
          unregisterScan env (List.range env.listSize) ++
          [MEv.unlock]
         else [])) (some 0) = some 0 := by
      apply lockRun_flatMap
      intro i _ d'
      by_cases hc : env.interfaceIDReadable i
      · have hs := unregisterScan_preserves env (List.range env.listSize) d'
        simp [hc, lockStep, hs]
      · simp [hc, lockStep]
    have h1 : lockRun [MEv.memberOp "m_system.GetInterfaces",
        MEv.sdk "InterfaceList.GetSize"] (some 0) = some 0 := by
      simp [lockStep]
    rw [lockRun_append, lockRun_append, h1, hloop]
    simp [lockStep]

/-! ## Step-phase lemmas for the per-camera pattern (C6) -/

@[simp] theorem stepsOf_nil : stepsOf [] = [] := rfl

@[simp] theorem stepsOf_append (l1 l2 : List Ev) :
    stepsOf (l1 ++ l2) = stepsOf l1 ++ stepsOf l2 :=
  List.filterMap_append l1 l2 _

@[simp] theorem stepsOf_cons_call (t : Step) (s : String) (st : Int) (l : List Ev) :
    stepsOf (Ev.call t s st :: l) =
      if t = .other then stepsOf l else t :: stepsOf l := by
  by_cases ht : t = Step.other <;> simp [stepsOf, stepOf, List.filterMap_cons, ht]

@[simp] theorem stepsOf_cons_callv (t : Step) (s : String) (v : ℚ) (st : Int) (l : List Ev) :
    stepsOf (Ev.callv t s v st :: l) =
      if t = .other then stepsOf l else t :: stepsOf l := by
  by_cases ht : t = Step.other <;> simp [stepsOf, stepOf, List.filterMap_cons, ht]

@[simp] theorem stepsOf_cons_calli (t : Step) (s : String) (v st : Int) (l : List Ev) :
    stepsOf (Ev.calli t s v st :: l) =
      if t = .other then stepsOf l else t :: stepsOf l := by
  by_cases ht : t = Step.other <;> simp [stepsOf, stepOf, List.filterMap_cons, ht]

@[simp] theorem stepsOf_cons_log (t : Step) (m : String) (l : List Ev) :
    stepsOf (Ev.log t m :: l) = stepsOf l := by
  simp [stepsOf, stepOf]

@[simp] theorem stepsOf_ite (c : Prop) [Decidable c] (l1 l2 : List Ev) :
    stepsOf (if c then l1 else l2) = if c then stepsOf l1 else stepsOf l2 :=
  apply_ite stepsOf c l1 l2

theorem acqIter_steps (env : ExpQSEnv) (t : Int) (i : Nat) :
    ∀ s ∈ stepsOf (acqIter env t i).1, s = Step.acquire := by
  intro s hs
  unfold acqIter at hs
  simp at hs
  split_ifs at hs <;> simp_all

theorem acqLoop_steps (env : ExpQSEnv) (t : Int) (l : List Nat) (acc : List Ev × Int)
    (hacc : ∀ s ∈ stepsOf acc.1, s = Step.acquire) :
    ∀ s ∈ stepsOf (acqLoop env t l acc).1, s = Step.acquire := by
  induction l generalizing acc with
  | nil => exact hacc
  | cons i rest ih =>
    intro s hs
    rw [acqLoop] at hs
    refine ih (acc.1 ++ (acqIter env t i).1, (acqIter env t i).2) ?_ s hs
    intro x hx
    rw [stepsOf_append, List.mem_append] at hx
    rcases hx with hx | hx
    · exact hacc x hx
    · exact acqIter_steps env t i x hx

theorem pdiIter_steps (env : ExpQSEnv) (i : Nat) :
    stepsOf (pdiIter env i).1 = [] := by
  simp only [pdiIter, IsReadable]
  split_ifs <;> simp

theorem pdiLoop_steps (env : ExpQSEnv) (l : List Nat) (acc : List Ev × Int)
    (hacc : stepsOf acc.1 = []) :
    stepsOf (pdiLoop env l acc).1 = [] := by
  induction l generalizing acc with
  | nil => exact hacc
  | cons i rest ih =>
    rw [pdiLoop]
    exact ih _ (by simp [hacc, pdiIter_steps])

theorem pdi_steps (env : ExpQSEnv) : stepsOf (PrintDeviceInfo env).1 = [] := by
  simp only [PrintDeviceInfo]
  split_ifs <;> simp
  exact pdiLoop_steps env _ _ (by simp)

theorem acquireImages_steps (env : ExpQSEnv) :
    ∀ s ∈ stepsOf (AcquireImages env).1, s = Step.acquire := by
  intro s hs
  simp only [AcquireImages] at hs
  split_ifs at hs <;> simp_all
  all_goals
    rcases hs with hs | hs
  all_goals first
    | simp_all
    | exact acqLoop_steps env _ _ _ (fun x hx => by simp_all) s hs

theorem cfg_steps (env : ExpQSEnv) :
    ∀ s ∈ stepsOf (ConfigureExposure env).1, s = Step.configure := by
  intro s hs
  simp only [ConfigureExposure] at hs
  split_ifs at hs <;> simp_all

theorem reset_steps (env : ExpQSEnv) :
    ∀ s ∈ stepsOf (ResetExposure env).1, s = Step.resetStep := by
  intro s hs
  simp only [ResetExposure] at hs
  split_ifs at hs <;> simp_all

/-- A list of equal steps is rank-sorted. -/
theorem pairwise_const (t : Step) (l : List Step) (h : ∀ s ∈ l, s = t) :
    l.Pairwise (fun x y => stepRank x ≤ stepRank y) := by
  induction l with
  | nil => simp
  | cons a as ih =>
    rw [List.pairwise_cons]
    refine ⟨fun b hb => ?_, ih fun s hs => h s (by simp [hs])⟩
    rw [h a (by simp), h b (by simp [hb])]

/-- The per-camera pattern is rank-sorted: an initialization step, then
configure steps, then acquire steps, then reset steps, then deinit
steps. -/
theorem pairwise_pattern (c a r d : List Step)
    (hc : ∀ s ∈ c, s = Step.configure)
    (ha : ∀ s ∈ a, s = Step.acquire)
    (hr : ∀ s ∈ r, s = Step.resetStep)
    (hd : ∀ s ∈ d, s = Step.deinit) :
    (Step.initCam :: (c ++ a ++ r ++ d)).Pairwise (fun x y => stepRank x ≤ stepRank y) := by
  rw [List.pairwise_cons]
  constructor
  · intro b hb
    simp only [List.mem_append] at hb
    rcases hb with ((hb | hb) | hb) | hb
    · rw [hc b hb]; decide
    · rw [ha b hb]; decide
    · rw [hr b hb]; decide
    · rw [hd b hb]; decide
  · refine List.pairwise_append.mpr ⟨?_, pairwise_const _ _ hd, ?_⟩
    · refine List.pairwise_append.mpr ⟨?_, pairwise_const _ _ hr, ?_⟩
      · refine List.pairwise_append.mpr
          ⟨pairwise_const _ _ hc, pairwise_const _ _ ha, ?_⟩
        intro x hx y hy
        rw [hc x hx, ha y hy]; decide
      · intro x hx y hy
        simp only [List.mem_append] at hx
        rcases hx with hx | hx
        · rw [hc x hx, hr y hy]; decide
        · rw [ha x hx, hr y hy]; decide
    · intro x hx y hy
      simp only [List.mem_append] at hx
      rcases hx with (hx | hx) | hx
      · rw [hc x hx, hd y hy]; decide
      · rw [ha x hx, hd y hy]; decide
      · rw [hr x hx, hd y hy]; decide

/-- The phase sequence of the per-camera run of `Exposure_C_Quickspin.c`
never leaves the pattern order: for every environment, the SDK-call
phases of `RunSingleCamera` are sorted by rank
(initialize ≤ configure ≤ acquire ≤ reset ≤ deinitialize). -/
theorem runSingleCamera_steps_sorted (env : ExpQSEnv) :
    (stepsOf (RunSingleCamera env).1).Pairwise (fun x y => stepRank x ≤ stepRank y) := by
  have hpdi := pdi_steps env
  simp only [RunSingleCamera]
  split_ifs <;> simp [hpdi]
  all_goals first
    | simpa using pairwise_pattern (stepsOf (ConfigureExposure env).1) [] [] []
        (cfg_steps env) (by simp) (by simp) (by simp)
    | simpa using pairwise_pattern (stepsOf (ConfigureExposure env).1)
        (stepsOf (AcquireImages env).1) [] []
        (cfg_steps env) (acquireImages_steps env) (by simp) (by simp)
    | simpa using pairwise_pattern (stepsOf (ConfigureExposure env).1)
        (stepsOf (AcquireImages env).1) (stepsOf (ResetExposure env).1) []
        (cfg_steps env) (acquireImages_steps env) (reset_steps env) (by simp)
    | simpa using pairwise_pattern (stepsOf (ConfigureExposure env).1)
        (stepsOf (AcquireImages env).1) (stepsOf (ResetExposure env).1) [Step.deinit]
        (cfg_steps env) (acquireImages_steps env) (reset_steps env) (by simp)

/-- C6 counterexample: the per-camera run of `NodeMapInfo_QuickSpin.cpp`
(initialize, print three GenICam nodes, deinitialize) performs no
configure, acquire or reset step, so not every example program's
per-camera run follows the fixed six-step pattern. -/
theorem nodemapinfo_run_lacks_acquire :
    stepsOf (nmiPerCameraRun ⟨true, true, true⟩) = [Step.initCam, Step.deinit] ∧
    Step.configure ∉ stepsOf (nmiPerCameraRun ⟨true, true, true⟩) ∧
    Step.acquire ∉ stepsOf (nmiPerCameraRun ⟨true, true, true⟩) ∧
    Step.resetStep ∉ stepsOf (nmiPerCameraRun ⟨true, true, true⟩) := by
  decide

/-- C6 (amended): in the Exposure QuickSpin example, the per-camera run's
SDK-call phases are in pattern order for every environment (no step out
of the order initialize, configure, acquire, reset, deinitialize), and
the all-success run of its `main` performs exactly the full pattern:
enumeration, then per camera initialize, three configure calls, the
53-call acquisition of 5 images, reset and deinitialize.  (Examples that
only enumerate or print node maps omit the configure/acquire/reset
steps.) -/
theorem exposure_example_follows_pattern :
    (∀ env : ExpQSEnv,
      (stepsOf (RunSingleCamera env).1).Pairwise (fun x y => stepRank x ≤ stepRank y)) ∧
    stepsOf (mainExposureQS envOK).1 =
      [Step.enumerate, Step.enumerate, Step.enumerate, Step.initCam] ++
      List.replicate 3 Step.configure ++ List.replicate 53 Step.acquire ++
      [Step.resetStep, Step.deinit] :=
  ⟨runSingleCamera_steps_sorted, by decide⟩
